import Mathlib

/-!
# Api-hotel: a model of `src/server.js`

`server.js` is an Express application over two Sequelize models, `User` and
`Reserva`, stored in MySQL.  The request pipeline is, in registration order
(lines 46-173): `cors()`, `express.json()`, the route `POST /users`, the
token middleware, and then the nine remaining routes.

The embedding is a pure function `serve : Store → RawRequest → Store × Option Response`
for the whole pipeline, and `app : Store → Request → Store × Option Response` for
what happens to a request whose body `express.json()` has passed on.

Environment assumptions (the parts played by Express, cors, Sequelize and
the database, none of which is code of the repository):

* a request arrives with its path already resolved (`Path`); its body is
  either one `express.json()` refuses, answered by the framework before any
  route or middleware registered later, or the parsed object (`Body`);
* body attributes are represented at the type of the column they are declared
  with (lines 16-40); lengths and ranges of column types, collation, and the
  `createdAt`/`updatedAt` bookkeeping columns are not represented;
* the text of a DATE attribute is represented by the date it is read as, so
  that two spellings of one instant are one value; text that is not a date
  becomes an invalid date, which a record renders as `null`;
* a unique index rejects a write that would leave two rows with the same
  non-NULL key; rows holding NULL in an indexed column are never in conflict;
* an `async` handler whose promise rejects outside a `try` writes no response
  itself: its outcome is `none` (what the framework or the runtime does with
  the rejection afterwards is not represented).
-/

namespace ApiHotel

/-! ## Data model -/

/-- One attribute of the parsed JSON body: the key is missing (JavaScript
`undefined`), holds JSON `null`, or holds a value. -/
inductive BodyField (α : Type) where
  | undefined : BodyField α
  | null : BodyField α
  | value (a : α) : BodyField α
  deriving DecidableEq, Repr

namespace BodyField

/-- JavaScript truthiness, as tested by `!x` on line 134: `undefined`, `null`,
the empty string and the number zero are falsy. -/
def truthyStr : BodyField String → Bool
  | value a => a != ""
  | _ => false

/-- JavaScript truthiness of a numeric attribute: only a non-zero number. -/
def truthyNum : BodyField Int → Bool
  | value a => a != 0
  | _ => false

/-- The column value written by an INSERT: a missing or `null` attribute is
stored as NULL. -/
def toColumn {α : Type} : BodyField α → Option α
  | value a => some a
  | _ => none

/-- The column value after an UPDATE whose SET list is built from the body: a
missing attribute leaves the column alone. -/
def applyTo {α : Type} : BodyField α → Option α → Option α
  | undefined, old => old
  | null, _ => none
  | value a, _ => some a

/-- Whether the body names the attribute, that is, holds its key. -/
def isNamed {α : Type} : BodyField α → Bool
  | undefined => false
  | _ => true

end BodyField

/-- The value of a DATE attribute once Sequelize has converted it: an instant
(milliseconds since the epoch), or the invalid date that text which is not a
date becomes.  A record sent with `res.json` renders an instant in ISO form and
the invalid date as `null`. -/
inductive DateValue where
  | instant (t : Int)
  | invalid
  deriving DecidableEq, Repr

/-- The text submitted for a DATE attribute: the empty string, or non-empty
text together with the date it is read as. -/
inductive DateText where
  | empty
  | reads (d : DateValue)
  deriving DecidableEq, Repr

/-- The date Sequelize makes of the text when it writes the column. -/
def DateText.toValue : DateText → DateValue
  | empty => .invalid
  | reads d => d

namespace BodyField

/-- JavaScript truthiness of a date attribute as tested on line 134: the test is
on the text, so only non-empty text is truthy. -/
def truthyDate : BodyField DateText → Bool
  | value (.reads _) => true
  | _ => false

/-- The DATE column value written by an INSERT. -/
def toDateColumn : BodyField DateText → Option DateValue
  | value d => some d.toValue
  | _ => none

/-- The DATE column value after an UPDATE whose SET list is built from the
body. -/
def applyDate : BodyField DateText → Option DateValue → Option DateValue
  | undefined, old => old
  | null, _ => none
  | value d, _ => some d.toValue

end BodyField

/-- A row of the `User` table (lines 16-26), with the generated `id`. -/
structure UserRow where
  id : Nat
  nome : Option String
  email : Option String
  senha : Option String
  token : Option String
  cpf : Option String
  dataNascimento : Option DateValue
  deriving DecidableEq, Repr

/-- A row of the `Reserva` table (lines 28-40), with the generated `id`. -/
structure ReservaRow where
  id : Nat
  apartamento : Option String
  numHospedes : Option Int
  dataEntrada : Option DateValue
  dataSaida : Option DateValue
  deriving DecidableEq, Repr

/-- The database: both tables in insertion order and their AUTO_INCREMENT
counters. -/
structure Store where
  users : List UserRow
  reservas : List ReservaRow
  nextUserId : Nat
  nextReservaId : Nat
  deriving DecidableEq, Repr

/-- The parsed JSON body, `req.body`, restricted to the attributes the two
models declare.  The birth date is carried as the date its text is read as (a
birth date given as the empty string is not represented); the two dates of a
reservation are carried as `DateText`, because line 134 tests their text. -/
structure Body where
  nome : BodyField String
  email : BodyField String
  senha : BodyField String
  token : BodyField String
  cpf : BodyField String
  dataNascimento : BodyField DateValue
  apartamento : BodyField String
  numHospedes : BodyField Int
  dataEntrada : BodyField DateText
  dataSaida : BodyField DateText
  deriving DecidableEq, Repr

/-- Whether the body names at least one attribute of the `User` model. -/
def Body.namesUser (b : Body) : Bool :=
  b.nome.isNamed || b.email.isNamed || b.senha.isNamed || b.token.isNamed || b.cpf.isNamed
    || b.dataNascimento.isNamed

/-- Whether the body names at least one attribute of the `Reserva` model. -/
def Body.namesReserva (b : Body) : Bool :=
  b.apartamento.isNamed || b.numHospedes.isNamed || b.dataEntrada.isNamed
    || b.dataSaida.isNamed

/-- HTTP methods. -/
inductive Method where
  | GET | HEAD | POST | PUT | DELETE | PATCH | OPTIONS
  deriving DecidableEq, Repr

/-- The request path as the router resolves it against the registered
patterns; a `:userId` or `:reservaId` parameter is carried as the number the
`id` column is compared with. -/
inductive Path where
  | users
  | usersId (userId : Nat)
  | login
  | reservas
  | reservasId (reservaId : Nat)
  | other
  deriving DecidableEq, Repr

/-- A request past `express.json()`: method, path, the `Authorization` header
if it is present, and the parsed body. -/
structure Request where
  method : Method
  path : Path
  authorization : Option String
  body : Body
  deriving DecidableEq, Repr

/-- Why `express.json()` refuses a body: it is not JSON, it is larger than the
limit, or its charset or encoding is not supported. -/
inductive BodyError where
  | malformed
  | tooLarge
  | unsupported
  deriving DecidableEq, Repr

/-- The status the framework answers a refused body with. -/
def BodyError.status : BodyError → Nat
  | malformed => 400
  | tooLarge => 413
  | unsupported => 415

/-- The body of a request as `express.json()` finds it: one it refuses, or one
it passes on as `req.body` (the empty object when there is nothing to parse). -/
inductive RawBody where
  | refused (error : BodyError)
  | parsed (body : Body)
  deriving DecidableEq, Repr

/-- A request as it reaches the server. -/
structure RawRequest where
  method : Method
  path : Path
  authorization : Option String
  body : RawBody
  deriving DecidableEq, Repr

/-- What a handler passes to `res.json` (or nothing at all). -/
inductive Payload where
  | empty
  | nullValue
  | message (message : String)
  | user (user : UserRow)
  | users (users : List UserRow)
  | reservas (reservas : List ReservaRow)
  | affected (message : String) (affectedRows : Nat)
  | reservaCreated (message : String) (reserva : ReservaRow)
  | notFoundPage
  | errorPage
  deriving DecidableEq, Repr

/-- A response: status code and payload. -/
structure Response where
  status : Nat
  payload : Payload
  deriving DecidableEq, Repr

/-- The errors a Sequelize call can reject with, as far as the handlers tell
them apart (`error.name === 'SequelizeUniqueConstraintError'`, line 59). -/
inductive DbError where
  | uniqueConstraint
  | other
  deriving DecidableEq, Repr

/-! ## Storage layer: the Sequelize calls the handlers make -/

namespace User

/-- Modelled from the spec: the unique index on `email`, which the database
enforces and of which the source holds only the declaration (line 20): the
"storage-layer rejection of an insert/update that would duplicate a value in a
column declared unique".  True when a row other than `self` holds the email. -/
def emailTaken (rows : List UserRow) (self : Option Nat) (email : String) : Bool :=
  rows.any (fun r => some r.id != self && r.email == some email)

/-- The call `User.create` of line 55.  The unique index on `email` rejects a
non-NULL email that a row already holds.  The record returned holds the birth
date as converted. -/
def create (s : Store) (nome email senha token cpf : BodyField String)
    (dataNascimento : BodyField DateValue) : Except DbError (UserRow × Store) :=
  let user : UserRow :=
    { id := s.nextUserId
      nome := nome.toColumn
      email := email.toColumn
      senha := senha.toColumn
      token := token.toColumn
      cpf := cpf.toColumn
      dataNascimento := dataNascimento.toColumn }
  match user.email with
  | some e =>
    if emailTaken s.users none e then .error .uniqueConstraint
    else .ok (user, { s with users := s.users ++ [user], nextUserId := s.nextUserId + 1 })
  | none => .ok (user, { s with users := s.users ++ [user], nextUserId := s.nextUserId + 1 })

/-- The call `User.findAll` of line 82. -/
def findAll (s : Store) : List UserRow :=
  s.users

/-- The call `User.findOne` with `where: { id: userId }` of line 89. -/
def findOne (s : Store) (userId : Nat) : Option UserRow :=
  s.users.find? (fun r => r.id == userId)

/-- The effect of an UPDATE built from the body on one row. -/
def patch (values : Body) (r : UserRow) : UserRow :=
  { id := r.id
    nome := values.nome.applyTo r.nome
    email := values.email.applyTo r.email
    senha := values.senha.applyTo r.senha
    token := values.token.applyTo r.token
    cpf := values.cpf.applyTo r.cpf
    dataNascimento := values.dataNascimento.applyTo r.dataNascimento }

/-- The call `User.update` with `where: { id: userId }` of line 97: the number of
rows matched and the new store.  When the values name no attribute of the
model, Sequelize issues no statement and answers 0.  Writing an email that
another row holds is rejected by the unique index. -/
def update (s : Store) (values : Body) (userId : Nat) : Except DbError (Nat × Store) :=
  if !values.namesUser then .ok (0, s)
  else
    let matched := s.users.filter (fun r => r.id == userId)
    let clash : Bool :=
      match values.email with
      | .value e => !matched.isEmpty && emailTaken s.users (some userId) e
      | _ => false
    if clash then .error .uniqueConstraint
    else .ok (matched.length,
      { s with users := s.users.map (fun r => if r.id == userId then patch values r else r) })

/-- The call `User.destroy` with `where: { id: userId }` of line 104: the number
of rows removed and the new store. -/
def destroy (s : Store) (userId : Nat) : Nat × Store :=
  ((s.users.filter (fun r => r.id == userId)).length,
    { s with users := s.users.filter (fun r => r.id != userId) })

/-- The call `User.findOne` with `where: { email, senha }` of line 112.  Sequelize
rejects a `where` holding `undefined`; `null` is compared with `IS NULL`. -/
def findOneByCredentials (s : Store) (email senha : BodyField String) :
    Except DbError (Option UserRow) :=
  match email, senha with
  | .undefined, _ => .error .other
  | _, .undefined => .error .other
  | e, p => .ok (s.users.find? (fun r => r.email == e.toColumn && r.senha == p.toColumn))

end User

namespace Reserva

/-- Modelled from the spec: the unique index on the pair of dates, which the
database enforces and of which the source holds only the declaration (lines
34-39): "the (check-in, check-out) pair must be unique across all
reservations".  True when a row other than `self` holds the pair; the index
compares the converted dates and only constrains rows in which both are
non-NULL. -/
def pairTaken (rows : List ReservaRow) (self : Option Nat)
    (dataEntrada dataSaida : Option DateValue) : Bool :=
  match dataEntrada, dataSaida with
  | some a, some b =>
    rows.any (fun r => some r.id != self && r.dataEntrada == some a && r.dataSaida == some b)
  | _, _ => false

/-- The call `Reserva.create` of line 138.  The record returned holds the two
dates as converted. -/
def create (s : Store) (apartamento : BodyField String) (numHospedes : BodyField Int)
    (dataEntrada dataSaida : BodyField DateText) : Except DbError (ReservaRow × Store) :=
  let reserva : ReservaRow :=
    { id := s.nextReservaId
      apartamento := apartamento.toColumn
      numHospedes := numHospedes.toColumn
      dataEntrada := dataEntrada.toDateColumn
      dataSaida := dataSaida.toDateColumn }
  if pairTaken s.reservas none reserva.dataEntrada reserva.dataSaida then
    .error .uniqueConstraint
  else
    .ok (reserva,
      { s with reservas := s.reservas ++ [reserva], nextReservaId := s.nextReservaId + 1 })

/-- The call `Reserva.findAll` of line 126. -/
def findAll (s : Store) : List ReservaRow :=
  s.reservas

/-- The call `Reserva.findByPk` of lines 147 and 163. -/
def findByPk (s : Store) (reservaId : Nat) : Option ReservaRow :=
  s.reservas.find? (fun r => r.id == reservaId)

/-- The effect of an UPDATE built from the body on one row. -/
def patch (values : Body) (r : ReservaRow) : ReservaRow :=
  { id := r.id
    apartamento := values.apartamento.applyTo r.apartamento
    numHospedes := values.numHospedes.applyTo r.numHospedes
    dataEntrada := values.dataEntrada.applyDate r.dataEntrada
    dataSaida := values.dataSaida.applyDate r.dataSaida }

/-- The call `Reserva.update` with `where: { id: reservaId }` of line 151.
When the values name no attribute of the model, Sequelize issues no statement
and answers 0.  Writing a pair of dates that another row holds is rejected by
the unique index. -/
def update (s : Store) (values : Body) (reservaId : Nat) : Except DbError (Nat × Store) :=
  if !values.namesReserva then .ok (0, s)
  else
    let matched := s.reservas.filter (fun r => r.id == reservaId)
    let clash : Bool :=
      matched.any (fun r =>
        pairTaken s.reservas (some reservaId) (patch values r).dataEntrada
          (patch values r).dataSaida)
    if clash then .error .uniqueConstraint
    else .ok (matched.length,
      { s with
        reservas := s.reservas.map (fun r => if r.id == reservaId then patch values r else r) })

/-- The call `Reserva.destroy` with `where: { id: reservaId }` of line 167. -/
def destroy (s : Store) (reservaId : Nat) : Nat × Store :=
  ((s.reservas.filter (fun r => r.id == reservaId)).length,
    { s with reservas := s.reservas.filter (fun r => r.id != reservaId) })

end Reserva

/-! ## Handlers, in the order of `server.js` -/

/-- The result of running the pipeline: the store afterwards and the response
the code writes; `none` when the promise of the handler rejected before any
response was written. -/
abbrev Outcome := Store × Option Response

/-- Handler of `POST /users`, lines 51-66. -/
def postUsers (s : Store) (req : Request) : Outcome :=
  let b := req.body
  match User.create s b.nome b.email b.senha b.token b.cpf b.dataNascimento with
  | .ok (user, s') => (s', some ⟨200, .user user⟩)
  | .error error =>
    if error = .uniqueConstraint then
      (s, some ⟨400, .message "O email já está em uso. Escolha outro email."⟩)
    else
      (s, some ⟨500, .message "Erro interno no servidor"⟩)

/-- The value the token middleware compares the header with, line 73. -/
def secretToken : String := "secret-token"

/-- The test of the token middleware, lines 71-77: true when the request is let
through to the routes below. -/
def tokenOk (req : Request) : Bool :=
  req.authorization == some secretToken

/-- The response of the token middleware to a request it stops, line 74. -/
def unauthorized : Response :=
  ⟨401, .message "Não autorizado"⟩

/-- Handler of `GET /users`, lines 81-84. -/
def getUsers (s : Store) (_req : Request) : Outcome :=
  (s, some ⟨200, .users (User.findAll s)⟩)

/-- Handler of `GET /users/:userId`, lines 87-91. -/
def getUsersId (s : Store) (userId : Nat) (_req : Request) : Outcome :=
  match User.findOne s userId with
  | some user => (s, some ⟨200, .user user⟩)
  | none => (s, some ⟨200, .nullValue⟩)

/-- Handler of `PUT /users/:userId`, lines 94-99. -/
def putUsersId (s : Store) (userId : Nat) (req : Request) : Outcome :=
  match User.update s req.body userId with
  | .ok (affectedRows, s') =>
    (s', some ⟨200, .affected "Os dados foram atualizados com sucesso!" affectedRows⟩)
  | .error _ => (s, none)

/-- Handler of `DELETE /users/:userId`, lines 102-106. -/
def deleteUsersId (s : Store) (userId : Nat) (_req : Request) : Outcome :=
  let (affectedRows, s') := User.destroy s userId
  (s', some ⟨200, .affected "O cadastro do cliente foi excluído com sucesso!." affectedRows⟩)

/-- Handler of `POST /login`, lines 109-122. -/
def postLogin (s : Store) (req : Request) : Outcome :=
  match User.findOneByCredentials s req.body.email req.body.senha with
  | .ok (some _) => (s, some ⟨200, .message "Login bem-sucedido"⟩)
  | .ok none => (s, some ⟨401, .message "Credenciais inválidas"⟩)
  | .error _ => (s, some ⟨500, .message "Erro interno no servidor"⟩)

/-- Handler of `GET /reservas`, lines 125-128. -/
def getReservas (s : Store) (_req : Request) : Outcome :=
  (s, some ⟨200, .reservas (Reserva.findAll s)⟩)

/-- Handler of `POST /reservas`, lines 131-140. -/
def postReservas (s : Store) (req : Request) : Outcome :=
  let b := req.body
  if !b.apartamento.truthyStr || !b.numHospedes.truthyNum || !b.dataEntrada.truthyDate
      || !b.dataSaida.truthyDate then
    (s, some ⟨400, .message "Todos os campos são obrigatórios."⟩)
  else
    match Reserva.create s b.apartamento b.numHospedes b.dataEntrada b.dataSaida with
    | .ok (reserva, s') => (s', some ⟨201, .reservaCreated "Reserva criada com sucesso!" reserva⟩)
    | .error _ => (s, none)

/-- Handler of `PUT /reservas/:reservaId`, lines 143-157. -/
def putReservasId (s : Store) (reservaId : Nat) (req : Request) : Outcome :=
  match Reserva.findByPk s reservaId with
  | none => (s, some ⟨404, .message "Reserva não encontrada."⟩)
  | some _ =>
    match Reserva.update s req.body reservaId with
    | .ok (_, s') => (s', some ⟨200, .message "Os dados da reserva foram atualizados com sucesso!"⟩)
    | .error _ => (s, some ⟨500, .message "Erro interno ao atualizar a reserva."⟩)

/-- Handler of `DELETE /reservas/:reservaId`, lines 160-173. -/
def deleteReservasId (s : Store) (reservaId : Nat) (_req : Request) : Outcome :=
  match Reserva.findByPk s reservaId with
  | none => (s, some ⟨404, .message "Reserva não encontrada."⟩)
  | some _ =>
    let (_, s') := Reserva.destroy s reservaId
    (s', some ⟨200, .message "A reserva foi excluída com sucesso!"⟩)

/-- The routes registered below the token middleware, lines 81-173.  Express
serves a HEAD request with the GET handler of the same path; a request no
route matches gets the framework's 404 page. -/
def gatedRoutes (s : Store) (req : Request) : Outcome :=
  match req.method, req.path with
  | .GET, .users => getUsers s req
  | .HEAD, .users => getUsers s req
  | .GET, .usersId userId => getUsersId s userId req
  | .HEAD, .usersId userId => getUsersId s userId req
  | .PUT, .usersId userId => putUsersId s userId req
  | .DELETE, .usersId userId => deleteUsersId s userId req
  | .POST, .login => postLogin s req
  | .GET, .reservas => getReservas s req
  | .HEAD, .reservas => getReservas s req
  | .POST, .reservas => postReservas s req
  | .PUT, .reservasId reservaId => putReservasId s reservaId req
  | .DELETE, .reservasId reservaId => deleteReservasId s reservaId req
  | _, _ => (s, some ⟨404, .notFoundPage⟩)

/-- The application on a request whose body `express.json()` has passed on, in
registration order: `cors()` answers an OPTIONS request itself with 204 (line
46); then the route `POST /users` (line 51); then the token middleware (line
71); then the remaining routes. -/
def app (s : Store) (req : Request) : Outcome :=
  if req.method = .OPTIONS then (s, some ⟨204, .empty⟩)
  else if req.method = .POST ∧ req.path = .users then postUsers s req
  else if !tokenOk req then (s, unauthorized)
  else gatedRoutes s req

/-- The middleware `express.json()` of line 47: a body it refuses is handed to
the error handling of the framework, which skips every route and middleware
registered later; otherwise the request goes on with `req.body` set. -/
def expressJson (raw : RawRequest) : Except BodyError Request :=
  match raw.body with
  | .refused error => .error error
  | .parsed body => .ok ⟨raw.method, raw.path, raw.authorization, body⟩

/-- The whole pipeline on a request as it arrives: `cors()` (line 46), which
answers an OPTIONS request before the body is read; `express.json()` (line 47),
whose refusal is answered with the status of the error; then `app`. -/
def serve (s : Store) (raw : RawRequest) : Outcome :=
  if raw.method = .OPTIONS then (s, some ⟨204, .empty⟩)
  else
    match expressJson raw with
    | .error error => (s, some ⟨error.status, .errorPage⟩)
    | .ok req => app s req

/-- The store after a sequence of requests served one after the other. -/
def run (s : Store) (reqs : List Request) : Store :=
  reqs.foldl (fun st req => (app st req).1) s

/-- The database with both tables empty. -/
def emptyStore : Store :=
  { users := [], reservas := [], nextUserId := 1, nextReservaId := 1 }

/-! ## Vocabulary of the statements -/

/-- A textual attribute that is absent or falsy: missing, `null` or empty. -/
def FalsyStr (f : BodyField String) : Prop :=
  f = .undefined ∨ f = .null ∨ f = .value ""

/-- A numeric attribute that is absent or falsy: missing, `null` or zero. -/
def FalsyNum (f : BodyField Int) : Prop :=
  f = .undefined ∨ f = .null ∨ f = .value 0

instance (f : BodyField String) : Decidable (FalsyStr f) := by
  unfold FalsyStr
  exact inferInstance

instance (f : BodyField Int) : Decidable (FalsyNum f) := by
  unfold FalsyNum
  exact inferInstance

/-- A date attribute that is absent or falsy: missing, `null` or the empty
string. -/
def FalsyDate (f : BodyField DateText) : Prop :=
  f = .undefined ∨ f = .null ∨ f = .value .empty

instance (f : BodyField DateText) : Decidable (FalsyDate f) := by
  unfold FalsyDate
  exact inferInstance

/-- How an attribute of the body relates a column before and after an update:
a missing attribute keeps the column, `null` clears it, a value replaces it. -/
def Written {α : Type} (f : BodyField α) (old new : Option α) : Prop :=
  match f with
  | .undefined => new = old
  | .null => new = none
  | .value a => new = some a

/-- No two rows at different positions of the table hold the same id. -/
def UserIdsDistinct (rows : List UserRow) : Prop :=
  rows.Pairwise (fun a b => a.id ≠ b.id)

/-- No two rows at different positions of the table hold the same email. -/
def EmailsDistinct (rows : List UserRow) : Prop :=
  rows.Pairwise (fun a b => ∀ e : String, a.email = some e → b.email ≠ some e)

/-- No two rows at different positions of the table hold the same id. -/
def ReservaIdsDistinct (rows : List ReservaRow) : Prop :=
  rows.Pairwise (fun a b => a.id ≠ b.id)

/-- No two rows at different positions of the table hold the same pair of
check-in and check-out dates. -/
def PairsDistinct (rows : List ReservaRow) : Prop :=
  rows.Pairwise (fun a b => ∀ d1 d2 : DateValue, a.dataEntrada = some d1 → a.dataSaida = some d2 →
    ¬ (b.dataEntrada = some d1 ∧ b.dataSaida = some d2))

/-- The invariant of the database: ids are distinct and below the counters,
and both unique indexes hold. -/
structure Store.Valid (s : Store) : Prop where
  userIds : UserIdsDistinct s.users
  userBound : ∀ r ∈ s.users, r.id < s.nextUserId
  emails : EmailsDistinct s.users
  reservaIds : ReservaIdsDistinct s.reservas
  reservaBound : ∀ r ∈ s.reservas, r.id < s.nextReservaId
  pairs : PairsDistinct s.reservas

/-! ## Sample data -/

/-- A body with no attribute at all. -/
def noBody : Body :=
  { nome := .undefined, email := .undefined, senha := .undefined, token := .undefined,
    cpf := .undefined, dataNascimento := .undefined, apartamento := .undefined,
    numHospedes := .undefined, dataEntrada := .undefined, dataSaida := .undefined }

/-- A user row. -/
def ana : UserRow :=
  { id := 1, nome := some "Ana", email := some "ana@hotel.com", senha := some "1234",
    token := none, cpf := some "11122233344",
    dataNascimento := some (.instant 641520000000) }

/-- A second user row. -/
def bruno : UserRow :=
  { id := 2, nome := some "Bruno", email := some "bruno@hotel.com", senha := some "abcd",
    token := none, cpf := none, dataNascimento := none }

/-- A reservation row. -/
def reserva101 : ReservaRow :=
  { id := 1, apartamento := some "101", numHospedes := some 2,
    dataEntrada := some (.instant 1704844800000), dataSaida := some (.instant 1705276800000) }

/-- A database with two users and one reservation. -/
def sampleStore : Store :=
  { users := [ana, bruno], reservas := [reserva101], nextUserId := 3, nextReservaId := 2 }

/-- A body with the credentials of `ana`. -/
def anaCredentials : Body :=
  { noBody with email := .value "ana@hotel.com", senha := .value "1234" }

/-- A body with the email of `ana` and a wrong password. -/
def anaWrongPassword : Body :=
  { noBody with email := .value "ana@hotel.com", senha := .value "0000" }

/-- A body for a reservation of another apartment on the dates of `reserva101`. -/
def sameDatesBody : Body :=
  { noBody with
    apartamento := .value "202"
    numHospedes := .value 3
    dataEntrada := .value (.reads (.instant 1704844800000))
    dataSaida := .value (.reads (.instant 1705276800000)) }

/-- A body for a reservation on dates no row holds. -/
def newDatesBody : Body :=
  { noBody with
    apartamento := .value "101"
    numHospedes := .value 2
    dataEntrada := .value (.reads (.instant 1706745600000))
    dataSaida := .value (.reads (.instant 1706918400000)) }

/-- A body for a reservation with zero guests. -/
def zeroGuestsBody : Body :=
  { noBody with
    apartamento := .value "101"
    numHospedes := .value 0
    dataEntrada := .value (.reads (.instant 1706745600000))
    dataSaida := .value (.reads (.instant 1706918400000)) }

/-- A body that registers a user under the email of `ana`. -/
def duplicateEmailBody : Body :=
  { noBody with nome := .value "Outra Ana", email := .value "ana@hotel.com", senha := .value "zzz" }

/-- A body that registers a user under an email no row holds. -/
def freshEmailBody : Body :=
  { noBody with nome := .value "Carla", email := .value "carla@hotel.com", senha := .value "pw" }

/-- A body that only renames a user. -/
def renameBody : Body :=
  { noBody with nome := .value "Ana Maria" }

/-- A body that only sets the email to the one `bruno` holds. -/
def takeBrunoEmailBody : Body :=
  { noBody with email := .value "bruno@hotel.com" }

/-- A CORS preflight for `/reservas`, without an `Authorization` header. -/
def preflightReservas : RawRequest :=
  { method := .OPTIONS, path := .reservas, authorization := none, body := .parsed noBody }

/-- A listing of the reservations without an `Authorization` header. -/
def listReservasNoHeader : RawRequest :=
  { method := .GET, path := .reservas, authorization := none, body := .parsed noBody }

/-- An update of user 1 without an `Authorization` header, whose body is cut
short and is not JSON. -/
def brokenPutUser : RawRequest :=
  { method := .PUT, path := .usersId 1, authorization := none, body := .refused .malformed }

/-- A registration under a fresh email, with a wrong `Authorization` header, as
it arrives. -/
def registerCarlaRaw : RawRequest :=
  { method := .POST, path := .users, authorization := some "wrong",
    body := .parsed freshEmailBody }

/-- A registration under a fresh email, with a wrong `Authorization` header. -/
def registerCarla : Request :=
  { method := .POST, path := .users, authorization := some "wrong", body := freshEmailBody }

/-- A registration under the email of `ana`. -/
def registerAnaAgain : Request :=
  { method := .POST, path := .users, authorization := none, body := duplicateEmailBody }

/-- A login with the credentials of `ana` and no `Authorization` header. -/
def loginNoHeader : Request :=
  { method := .POST, path := .login, authorization := none, body := anaCredentials }

/-- A login with the credentials of `ana` and a wrong `Authorization` header. -/
def loginWrongHeader : Request :=
  { method := .POST, path := .login, authorization := some "Bearer secret-token",
    body := anaCredentials }

/-- A login with the credentials of `ana` and the expected header. -/
def loginAna : Request :=
  { method := .POST, path := .login, authorization := some "secret-token", body := anaCredentials }

/-- A login with a wrong password and the expected header. -/
def loginAnaWrong : Request :=
  { method := .POST, path := .login, authorization := some "secret-token",
    body := anaWrongPassword }

/-- An authorized reservation on the dates `reserva101` holds. -/
def bookSameDates : Request :=
  { method := .POST, path := .reservas, authorization := some "secret-token",
    body := sameDatesBody }

/-- An authorized reservation on dates no row holds. -/
def bookNewDates : Request :=
  { method := .POST, path := .reservas, authorization := some "secret-token",
    body := newDatesBody }

/-- A body for another apartment and guest count on the dates of `newDatesBody`. -/
def newDatesOtherBody : Body :=
  { noBody with
    apartamento := .value "305"
    numHospedes := .value 4
    dataEntrada := .value (.reads (.instant 1706745600000))
    dataSaida := .value (.reads (.instant 1706918400000)) }

/-- An authorized reservation of another apartment on the dates of `bookNewDates`. -/
def bookNewDatesOther : Request :=
  { method := .POST, path := .reservas, authorization := some "secret-token",
    body := newDatesOtherBody }

/-- An authorized reservation with zero guests. -/
def bookZeroGuests : Request :=
  { method := .POST, path := .reservas, authorization := some "secret-token",
    body := zeroGuestsBody }

/-- An authorized update of a reservation that does not exist. -/
def putReserva9 : Request :=
  { method := .PUT, path := .reservasId 9, authorization := some "secret-token",
    body := newDatesBody }

/-- An authorized removal of a reservation that does not exist. -/
def deleteReserva9 : Request :=
  { method := .DELETE, path := .reservasId 9, authorization := some "secret-token",
    body := noBody }

/-- An authorized renaming of user 1. -/
def renameAna : Request :=
  { method := .PUT, path := .usersId 1, authorization := some "secret-token", body := renameBody }

/-- An authorized update of user 1 whose body names no attribute. -/
def emptyPutAna : Request :=
  { method := .PUT, path := .usersId 1, authorization := some "secret-token", body := noBody }

/-- An authorized renaming of a user that does not exist. -/
def renameNobody : Request :=
  { method := .PUT, path := .usersId 7, authorization := some "secret-token", body := renameBody }

/-- An authorized update giving user 1 the email user 2 holds. -/
def anaTakesBrunoEmail : Request :=
  { method := .PUT, path := .usersId 1, authorization := some "secret-token",
    body := takeBrunoEmailBody }

/-- An authorized read of user 2. -/
def getBruno : Request :=
  { method := .GET, path := .usersId 2, authorization := some "secret-token", body := noBody }

/-- An authorized read of a user that does not exist. -/
def getNobody : Request :=
  { method := .GET, path := .usersId 7, authorization := some "secret-token", body := noBody }

/-! ## The token middleware and the order of registration -/

theorem tokenOk_eq_false {req : Request} (h : req.authorization ≠ some "secret-token") :
    tokenOk req = false := by
  simp [tokenOk, secretToken, h]

theorem tokenOk_eq_true {req : Request} (h : req.authorization = some "secret-token") :
    tokenOk req = true := by
  simp [tokenOk, secretToken, h]

theorem app_post_users (s : Store) (req : Request) (hm : req.method = .POST)
    (hp : req.path = .users) : app s req = postUsers s req := by
  simp [app, hm, hp]

theorem app_stopped (s : Store) (req : Request) (ho : req.method ≠ .OPTIONS)
    (hr : ¬ (req.method = .POST ∧ req.path = .users))
    (ha : req.authorization ≠ some "secret-token") : app s req = (s, some unauthorized) := by
  rw [app, if_neg ho, if_neg hr, tokenOk_eq_false ha]
  rfl

theorem app_gated (s : Store) (req : Request) (ho : req.method ≠ .OPTIONS)
    (hr : ¬ (req.method = .POST ∧ req.path = .users))
    (ha : req.authorization = some "secret-token") : app s req = gatedRoutes s req := by
  rw [app, if_neg ho, if_neg hr, tokenOk_eq_true ha]
  rfl

/-! ## The storage calls -/

theorem User.emailTaken_none (rows : List UserRow) (e : String) :
    User.emailTaken rows none e = true ↔ ∃ r ∈ rows, r.email = some e := by
  simp [User.emailTaken]

theorem User.emailTaken_some (rows : List UserRow) (n : Nat) (e : String) :
    User.emailTaken rows (some n) e = true ↔ ∃ r ∈ rows, r.id ≠ n ∧ r.email = some e := by
  simp [User.emailTaken]

theorem User.create_email_taken (s : Store) (nome email senha token cpf : BodyField String)
    (dataNascimento : BodyField DateValue)
    (e : String) (he : email = .value e) (h : ∃ r ∈ s.users, r.email = some e) :
    User.create s nome email senha token cpf dataNascimento = .error .uniqueConstraint := by
  subst he
  have hany := (User.emailTaken_none s.users e).mpr h
  simp only [User.create, BodyField.toColumn, hany, if_true]

theorem User.create_email_free (s : Store) (nome email senha token cpf : BodyField String)
    (dataNascimento : BodyField DateValue)
    (h : ∀ e, email = .value e → ∀ r ∈ s.users, r.email ≠ some e) :
    User.create s nome email senha token cpf dataNascimento =
      .ok (⟨s.nextUserId, nome.toColumn, email.toColumn, senha.toColumn, token.toColumn,
              cpf.toColumn, dataNascimento.toColumn⟩,
           ⟨s.users ++ [⟨s.nextUserId, nome.toColumn, email.toColumn, senha.toColumn,
              token.toColumn, cpf.toColumn, dataNascimento.toColumn⟩],
            s.reservas, s.nextUserId + 1, s.nextReservaId⟩) := by
  cases email with
  | undefined => simp [User.create, BodyField.toColumn]
  | null => simp [User.create, BodyField.toColumn]
  | value e =>
    have hany : User.emailTaken s.users none e = false := by
      rw [← Bool.not_eq_true, User.emailTaken_none]
      push_neg
      exact h e rfl
    simp [User.create, BodyField.toColumn, hany]

theorem User.create_cases (s : Store) (nome email senha token cpf : BodyField String)
    (dataNascimento : BodyField DateValue) :
    User.create s nome email senha token cpf dataNascimento = .error .uniqueConstraint ∨
    ∃ user s', User.create s nome email senha token cpf dataNascimento = .ok (user, s') := by
  by_cases h : ∀ e, email = .value e → ∀ r ∈ s.users, r.email ≠ some e
  · exact Or.inr ⟨_, _, User.create_email_free s nome email senha token cpf dataNascimento h⟩
  · push_neg at h
    obtain ⟨e, he, r, hr, hre⟩ := h
    exact Or.inl
      (User.create_email_taken s nome email senha token cpf dataNascimento e he ⟨r, hr, hre⟩)

theorem postUsers_status (s : Store) (req : Request) :
    ∃ r, (postUsers s req).2 = some r ∧ (r.status = 200 ∨ r.status = 400) := by
  unfold postUsers
  rcases User.create_cases s req.body.nome req.body.email req.body.senha req.body.token
      req.body.cpf req.body.dataNascimento with h | ⟨user, s', h⟩
  · simp [h]
  · simp [h]

theorem serve_parsed (s : Store) (raw : RawRequest) (b : Body) (ho : raw.method ≠ .OPTIONS)
    (hb : raw.body = .parsed b) :
    serve s raw = app s ⟨raw.method, raw.path, raw.authorization, b⟩ := by
  simp [serve, expressJson, ho, hb]

theorem serve_refused (s : Store) (raw : RawRequest) (e : BodyError) (ho : raw.method ≠ .OPTIONS)
    (hb : raw.body = .refused e) : serve s raw = (s, some ⟨e.status, .errorPage⟩) := by
  simp [serve, expressJson, ho, hb]

/-- C1 (amended). For every store and every request that is not a CORS
preflight (method OPTIONS) and whose body `express.json()` does not refuse: if
the request is not `POST /users` and its `Authorization` header is absent or
differs from `secret-token`, the response is the 401 of the token middleware and
the store is unchanged.  A `POST /users` request whose body is not refused is
handled by the user-creation handler whatever its header, and no `POST /users`
request is answered with status 401.  An OPTIONS request is answered 204 by the
CORS middleware, and a request other than OPTIONS whose body `express.json()`
refuses is answered with the status of that refusal (400, 413 or 415), in both
cases with or without the header and with the store unchanged. -/
theorem token_gate_guards_all_but_registration (s : Store) (raw : RawRequest) :
    (raw.method ≠ .OPTIONS → (∃ b, raw.body = .parsed b) →
      ¬ (raw.method = .POST ∧ raw.path = .users) →
      raw.authorization ≠ some "secret-token" →
        serve s raw = (s, some ⟨401, .message "Não autorizado"⟩)) ∧
    (raw.method = .POST → raw.path = .users →
      (∀ b, raw.body = .parsed b →
        serve s raw = postUsers s ⟨raw.method, raw.path, raw.authorization, b⟩) ∧
      ∀ r, (serve s raw).2 = some r → r.status ≠ 401) ∧
    (raw.method = .OPTIONS → serve s raw = (s, some ⟨204, .empty⟩)) ∧
    (raw.method ≠ .OPTIONS → ∀ e, raw.body = .refused e →
      serve s raw = (s, some ⟨e.status, .errorPage⟩) ∧
      (e.status = 400 ∨ e.status = 413 ∨ e.status = 415)) := by
  refine ⟨fun ho hb hr ha => ?_, fun hm hp => ⟨fun b hb => ?_, fun r hr => ?_⟩, fun ho => ?_,
    fun ho e hb => ⟨serve_refused s raw e ho hb, ?_⟩⟩
  · obtain ⟨b, hb⟩ := hb
    rw [serve_parsed s raw b ho hb]
    exact app_stopped s _ ho hr ha
  · rw [serve_parsed s raw b (by simp [hm]) hb]
    exact app_post_users s _ hm hp
  · have ho : raw.method ≠ .OPTIONS := by simp [hm]
    cases hb : raw.body with
    | refused e =>
      rw [serve_refused s raw e ho hb] at hr
      cases hr
      cases e <;> simp [BodyError.status]
    | parsed b =>
      rw [serve_parsed s raw b ho hb, app_post_users s _ hm hp] at hr
      obtain ⟨r', hr', hst⟩ := postUsers_status s ⟨raw.method, raw.path, raw.authorization, b⟩
      rw [hr] at hr'
      cases hr'
      rcases hst with h | h <;> omega
  · simp [serve, ho]
  · cases e <;> simp [BodyError.status]

/-- C1, instance: an unauthorized listing of the reservations is stopped with
401, and a registration with a wrong header is not. -/
theorem token_gate_guards_all_but_registration_witness :
    (listReservasNoHeader.method ≠ .OPTIONS ∧
      listReservasNoHeader.body = .parsed noBody ∧
      ¬ (listReservasNoHeader.method = .POST ∧ listReservasNoHeader.path = .users) ∧
      listReservasNoHeader.authorization ≠ some "secret-token" ∧
      serve sampleStore listReservasNoHeader
        = (sampleStore, some ⟨401, .message "Não autorizado"⟩)) ∧
    (registerCarlaRaw.method = .POST ∧ registerCarlaRaw.path = .users ∧
      ∀ r, (serve sampleStore registerCarlaRaw).2 = some r → r.status ≠ 401) :=
  ⟨⟨by decide, rfl, by decide, by decide,
      (token_gate_guards_all_but_registration sampleStore listReservasNoHeader).1
        (by decide) ⟨noBody, rfl⟩ (by decide) (by decide)⟩,
    ⟨rfl, rfl,
      ((token_gate_guards_all_but_registration sampleStore registerCarlaRaw).2.1 rfl rfl).2⟩⟩

/-- C1, as stated, fails on two kinds of request that are answered before the
token middleware is reached.  The preflight `OPTIONS /reservas` is not
`POST /users` and carries no `Authorization` header, yet the response is 204.
The request `PUT /users/1` whose body is cut short is not `POST /users` and
carries no header, yet the response is the 400 of the body parser.  Neither is
the 401 of the claim. -/
theorem answered_before_the_token_gate :
    (¬ (preflightReservas.method = .POST ∧ preflightReservas.path = .users) ∧
      preflightReservas.authorization = none ∧
      (serve sampleStore preflightReservas).2 = some ⟨204, .empty⟩ ∧
      (serve sampleStore preflightReservas).2 ≠ some ⟨401, .message "Não autorizado"⟩) ∧
    (¬ (brokenPutUser.method = .POST ∧ brokenPutUser.path = .users) ∧
      brokenPutUser.authorization = none ∧
      (serve sampleStore brokenPutUser).2 = some ⟨400, .errorPage⟩ ∧
      (serve sampleStore brokenPutUser).2 ≠ some ⟨401, .message "Não autorizado"⟩) := by
  refine ⟨⟨by decide, rfl, rfl, by decide⟩, ⟨by decide, rfl, rfl, by decide⟩⟩

/-! ## Login -/

theorem User.findOneByCredentials_value (s : Store) (e p : String) :
    User.findOneByCredentials s (.value e) (.value p) =
      .ok (s.users.find? (fun r => r.email == some e && r.senha == some p)) := by
  simp [User.findOneByCredentials, BodyField.toColumn]

theorem postLogin_found (s : Store) (req : Request) (e p : String)
    (he : req.body.email = .value e) (hs : req.body.senha = .value p)
    (h : ∃ r ∈ s.users, r.email = some e ∧ r.senha = some p) :
    postLogin s req = (s, some ⟨200, .message "Login bem-sucedido"⟩) := by
  have hsome : (s.users.find? (fun r => r.email == some e && r.senha == some p)).isSome = true := by
    rw [List.find?_isSome]
    obtain ⟨r, hr, h1, h2⟩ := h
    exact ⟨r, hr, by simp [h1, h2]⟩
  obtain ⟨u, hu⟩ := Option.isSome_iff_exists.mp hsome
  simp [postLogin, he, hs, User.findOneByCredentials_value, hu]

theorem postLogin_missing (s : Store) (req : Request) (e p : String)
    (he : req.body.email = .value e) (hs : req.body.senha = .value p)
    (h : ∀ r ∈ s.users, ¬ (r.email = some e ∧ r.senha = some p)) :
    postLogin s req = (s, some ⟨401, .message "Credenciais inválidas"⟩) := by
  have hnone : s.users.find? (fun r => r.email == some e && r.senha == some p) = none := by
    rw [List.find?_eq_none]
    intro r hr
    have := h r hr
    simpa using this
  simp [postLogin, he, hs, User.findOneByCredentials_value, hnone]

theorem app_login_authorized (s : Store) (req : Request) (hm : req.method = .POST)
    (hp : req.path = .login) (ha : req.authorization = some "secret-token") :
    app s req = postLogin s req := by
  rw [app_gated s req (by simp [hm]) (by simp [hp]) ha]
  simp [gatedRoutes, hm, hp]

/-- C3 (amended). For every store and every authorized `POST /login` request
with body (email, senha): the response is 200 if some User row has exactly that
email and that password, and 401 with the invalid-credentials message if no row
has both; the store is unchanged either way. -/
theorem login_authorized_by_lookup (s : Store) (req : Request) (e p : String)
    (hm : req.method = .POST) (hp : req.path = .login)
    (ha : req.authorization = some "secret-token")
    (he : req.body.email = .value e) (hs : req.body.senha = .value p) :
    ((∃ r ∈ s.users, r.email = some e ∧ r.senha = some p) →
      app s req = (s, some ⟨200, .message "Login bem-sucedido"⟩)) ∧
    ((∀ r ∈ s.users, ¬ (r.email = some e ∧ r.senha = some p)) →
      app s req = (s, some ⟨401, .message "Credenciais inválidas"⟩)) := by
  rw [app_login_authorized s req hm hp ha]
  exact ⟨postLogin_found s req e p he hs, postLogin_missing s req e p he hs⟩

/-- C3, instance: with the expected header, the credentials of `ana` log in
and a wrong password does not. -/
theorem login_authorized_by_lookup_witness :
    (loginAna.method = .POST ∧ loginAna.path = .login ∧
      loginAna.authorization = some "secret-token" ∧
      loginAna.body.email = .value "ana@hotel.com" ∧ loginAna.body.senha = .value "1234" ∧
      (∃ r ∈ sampleStore.users, r.email = some "ana@hotel.com" ∧ r.senha = some "1234") ∧
      app sampleStore loginAna = (sampleStore, some ⟨200, .message "Login bem-sucedido"⟩)) ∧
    (loginAnaWrong.body.senha = .value "0000" ∧
      (∀ r ∈ sampleStore.users, ¬ (r.email = some "ana@hotel.com" ∧ r.senha = some "0000")) ∧
      app sampleStore loginAnaWrong
        = (sampleStore, some ⟨401, .message "Credenciais inválidas"⟩)) :=
  ⟨⟨rfl, rfl, rfl, rfl, rfl, ⟨ana, by decide, rfl, rfl⟩,
      (login_authorized_by_lookup sampleStore loginAna "ana@hotel.com" "1234"
        rfl rfl rfl rfl rfl).1 ⟨ana, by decide, rfl, rfl⟩⟩,
    ⟨rfl, by decide,
      (login_authorized_by_lookup sampleStore loginAnaWrong "ana@hotel.com" "0000"
        rfl rfl rfl rfl rfl).2 (by decide)⟩⟩

/-- C3, as stated, fails without the header: a `POST /login` whose body holds the
email and the password of a row is answered 401 when it carries no
`Authorization` header. -/
theorem login_with_right_credentials_refused :
    loginNoHeader.method = .POST ∧ loginNoHeader.path = .login ∧
    loginNoHeader.body.email = .value "ana@hotel.com" ∧
    loginNoHeader.body.senha = .value "1234" ∧
    (∃ r ∈ sampleStore.users, r.email = some "ana@hotel.com" ∧ r.senha = some "1234") ∧
    (app sampleStore loginNoHeader).2 = some ⟨401, .message "Não autorizado"⟩ :=
  ⟨rfl, rfl, rfl, rfl, ⟨ana, by decide, rfl, rfl⟩, rfl⟩

/-- C9 (amended). The token middleware is checked after the user-creation
route and before every other route, the login route included: a `POST /login`
request whose `Authorization` header is absent or wrong is stopped with the 401
of the middleware whatever its body, and the store is unchanged; with the
expected header it reaches the login handler; a `POST /users` request reaches
its handler whatever the header. -/
theorem login_is_behind_the_token_gate (s : Store) (req : Request) :
    (req.method = .POST → req.path = .login → req.authorization ≠ some "secret-token" →
      app s req = (s, some unauthorized)) ∧
    (req.method = .POST → req.path = .login → req.authorization = some "secret-token" →
      app s req = postLogin s req) ∧
    (req.method = .POST → req.path = .users → app s req = postUsers s req) := by
  refine ⟨fun hm hp ha => ?_, fun hm hp ha => app_login_authorized s req hm hp ha,
    fun hm hp => app_post_users s req hm hp⟩
  exact app_stopped s req (by simp [hm]) (by simp [hp]) ha

/-- C9, instance: a login with a wrong header is stopped by the middleware. -/
theorem login_is_behind_the_token_gate_witness :
    loginWrongHeader.method = .POST ∧ loginWrongHeader.path = .login ∧
    loginWrongHeader.authorization ≠ some "secret-token" ∧
    app sampleStore loginWrongHeader = (sampleStore, some unauthorized) :=
  ⟨rfl, rfl, by decide,
    (login_is_behind_the_token_gate sampleStore loginWrongHeader).1 rfl rfl (by decide)⟩

/-- C9, as stated, fails: a `POST /login` with a wrong `Authorization` header and
the credentials of a row does not get the answer of the login handler (200) but
the 401 of the token middleware. -/
theorem login_does_not_reach_handler :
    loginWrongHeader.method = .POST ∧ loginWrongHeader.path = .login ∧
    (postLogin sampleStore loginWrongHeader).2 = some ⟨200, .message "Login bem-sucedido"⟩ ∧
    (app sampleStore loginWrongHeader).2 = some ⟨401, .message "Não autorizado"⟩ ∧
    app sampleStore loginWrongHeader ≠ postLogin sampleStore loginWrongHeader :=
  ⟨rfl, rfl, rfl, rfl, by decide⟩

/-! ## Lookups by id -/

theorem find_id_none {α : Type} (rows : List α) (key : α → Nat) (n : Nat)
    (h : ∀ r ∈ rows, key r ≠ n) : rows.find? (fun r => key r == n) = none := by
  rw [List.find?_eq_none]
  intro r hr
  simpa using h r hr

theorem find_id_some {α : Type} (rows : List α) (key : α → Nat) (n : Nat)
    (h : ∃ r ∈ rows, key r = n) :
    ∃ r ∈ rows, key r = n ∧ rows.find? (fun r => key r == n) = some r := by
  have hsome : (rows.find? (fun r => key r == n)).isSome = true := by
    rw [List.find?_isSome]
    obtain ⟨r, hr, hk⟩ := h
    exact ⟨r, hr, by simp [hk]⟩
  obtain ⟨u, hu⟩ := Option.isSome_iff_exists.mp hsome
  refine ⟨u, List.mem_of_find?_eq_some hu, ?_, hu⟩
  simpa using List.find?_some hu

theorem find_id_unique {α : Type} (rows : List α) (key : α → Nat) (row : α)
    (hd : rows.Pairwise (fun a b => key a ≠ key b)) (hrow : row ∈ rows) :
    rows.find? (fun r => key r == key row) = some row := by
  induction rows with
  | nil => cases hrow
  | cons a l ih =>
    rw [List.pairwise_cons] at hd
    rcases List.mem_cons.mp hrow with h | h
    · subst h
      simp
    · have hne : key a ≠ key row := hd.1 row h
      rw [List.find?_cons_of_neg _ (by simpa using hne)]
      exact ih hd.2 h

/-- C6. For every store and every authorized `PUT /reservas/:id` or
`DELETE /reservas/:id` request whose id is the id of no Reserva row, the response
is 404 with the not-found message and the store is unchanged. -/
theorem reserva_not_found (s : Store) (req : Request) (reservaId : Nat)
    (hm : req.method = .PUT ∨ req.method = .DELETE) (hp : req.path = .reservasId reservaId)
    (ha : req.authorization = some "secret-token")
    (hno : ∀ r ∈ s.reservas, r.id ≠ reservaId) :
    app s req = (s, some ⟨404, .message "Reserva não encontrada."⟩) := by
  have hfind : Reserva.findByPk s reservaId = none :=
    find_id_none s.reservas (fun r => r.id) reservaId hno
  rcases hm with hm | hm
  · rw [app_gated s req (by simp [hm]) (by simp [hp]) ha]
    simp [gatedRoutes, hm, hp, putReservasId, hfind]
  · rw [app_gated s req (by simp [hm]) (by simp [hp]) ha]
    simp [gatedRoutes, hm, hp, deleteReservasId, hfind]

/-- C6, instance: an update and a removal of reservation 9, which no row holds. -/
theorem reserva_not_found_witness :
    (putReserva9.method = .PUT ∨ putReserva9.method = .DELETE) ∧
    putReserva9.path = .reservasId 9 ∧
    putReserva9.authorization = some "secret-token" ∧
    (∀ r ∈ sampleStore.reservas, r.id ≠ 9) ∧
    app sampleStore putReserva9
      = (sampleStore, some ⟨404, .message "Reserva não encontrada."⟩) ∧
    app sampleStore deleteReserva9
      = (sampleStore, some ⟨404, .message "Reserva não encontrada."⟩) :=
  ⟨Or.inl rfl, rfl, rfl, by decide,
    reserva_not_found sampleStore putReserva9 9 (Or.inl rfl) rfl rfl (by decide),
    reserva_not_found sampleStore deleteReserva9 9 (Or.inr rfl) rfl rfl (by decide)⟩

/-- C10. For every store and every authorized `GET /users/:id` request: if the
id is the id of no User row, the response is 200 with a null body (not 404); if
some row has the id, the response is 200 and its body is a row of the table with
that id, which is the row itself when ids are distinct.  The store is unchanged
in every case. -/
theorem get_user_by_id (s : Store) (req : Request) (userId : Nat)
    (hm : req.method = .GET) (hp : req.path = .usersId userId)
    (ha : req.authorization = some "secret-token") :
    ((∀ r ∈ s.users, r.id ≠ userId) → app s req = (s, some ⟨200, .nullValue⟩)) ∧
    ((∃ r ∈ s.users, r.id = userId) →
      ∃ row ∈ s.users, row.id = userId ∧ app s req = (s, some ⟨200, .user row⟩)) ∧
    (UserIdsDistinct s.users →
      ∀ row ∈ s.users, row.id = userId → app s req = (s, some ⟨200, .user row⟩)) := by
  rw [app_gated s req (by simp [hm]) (by simp [hp]) ha]
  have hroute : gatedRoutes s req = getUsersId s userId req := by
    simp [gatedRoutes, hm, hp]
  rw [hroute]
  refine ⟨fun hno => ?_, fun hex => ?_, fun hd row hrow hid => ?_⟩
  · have hfind : User.findOne s userId = none :=
      find_id_none s.users (fun r => r.id) userId hno
    simp [getUsersId, hfind]
  · obtain ⟨row, hrow, hid, hfind⟩ := find_id_some s.users (fun r => r.id) userId hex
    have hfind' : User.findOne s userId = some row := hfind
    exact ⟨row, hrow, hid, by simp [getUsersId, hfind']⟩
  · have hfind : User.findOne s userId = some row := by
      subst hid
      exact find_id_unique s.users (fun r => r.id) row hd hrow
    simp [getUsersId, hfind]

/-- C10, instance: reading user 7, which no row holds, and reading user 2. -/
theorem get_user_by_id_witness :
    getNobody.method = .GET ∧ getNobody.path = .usersId 7 ∧
    getNobody.authorization = some "secret-token" ∧
    (∀ r ∈ sampleStore.users, r.id ≠ 7) ∧
    app sampleStore getNobody = (sampleStore, some ⟨200, .nullValue⟩) ∧
    app sampleStore getBruno = (sampleStore, some ⟨200, .user bruno⟩) :=
  ⟨rfl, rfl, rfl, by decide,
    (get_user_by_id sampleStore getNobody 7 rfl rfl rfl).1 (by decide),
    (get_user_by_id sampleStore getBruno 2 rfl rfl rfl).2.2
      (by simp [UserIdsDistinct, sampleStore, ana, bruno]) bruno (by decide) rfl⟩

/-! ## Registration -/

/-- C2. For every store and every `POST /users` request with email `e`: if a
User row already holds `e`, the response is 400 with the email-in-use message and
both tables are as before; if no row holds `e`, the response is 200 and carries
the created record, whose id is the generated one and whose attributes are the
submitted ones (the birth date as the date its text is converted to, not as it
is spelled), and that record is the one row added to the User table. -/
theorem register_rejects_duplicate_email (s : Store) (req : Request) (e : String)
    (hm : req.method = .POST) (hp : req.path = .users) (he : req.body.email = .value e) :
    ((∃ r ∈ s.users, r.email = some e) →
      (app s req).2 = some ⟨400, .message "O email já está em uso. Escolha outro email."⟩ ∧
      (app s req).1.users = s.users ∧ (app s req).1.reservas = s.reservas) ∧
    ((∀ r ∈ s.users, r.email ≠ some e) →
      ∃ user : UserRow, (app s req).2 = some ⟨200, .user user⟩ ∧
        user.id = s.nextUserId ∧ user.email = some e ∧
        user.nome = req.body.nome.toColumn ∧ user.senha = req.body.senha.toColumn ∧
        user.token = req.body.token.toColumn ∧ user.cpf = req.body.cpf.toColumn ∧
        user.dataNascimento = req.body.dataNascimento.toColumn ∧
        (app s req).1.users = s.users ++ [user] ∧ (app s req).1.reservas = s.reservas) := by
  rw [app_post_users s req hm hp]
  refine ⟨fun hdup => ?_, fun hfresh => ?_⟩
  · have hc := User.create_email_taken s req.body.nome req.body.email req.body.senha req.body.token
      req.body.cpf req.body.dataNascimento e he hdup
    simp [postUsers, hc]
  · have hc := User.create_email_free s req.body.nome req.body.email req.body.senha req.body.token
      req.body.cpf req.body.dataNascimento (fun e' he' r hr => by
        rw [he] at he'
        cases he'
        exact hfresh r hr)
    refine ⟨⟨s.nextUserId, req.body.nome.toColumn, req.body.email.toColumn,
      req.body.senha.toColumn, req.body.token.toColumn, req.body.cpf.toColumn,
      req.body.dataNascimento.toColumn⟩, ?_, rfl, ?_, rfl, rfl, rfl, rfl, rfl, ?_, ?_⟩
    · simp [postUsers, hc]
    · simp [he, BodyField.toColumn]
    · simp [postUsers, hc]
    · simp [postUsers, hc]

/-- C2, instance: registering under the email of `ana` is refused, and
registering `carla` returns the record with id 3. -/
theorem register_rejects_duplicate_email_witness :
    (registerAnaAgain.method = .POST ∧ registerAnaAgain.path = .users ∧
      registerAnaAgain.body.email = .value "ana@hotel.com" ∧
      (∃ r ∈ sampleStore.users, r.email = some "ana@hotel.com") ∧
      (app sampleStore registerAnaAgain).2
        = some ⟨400, .message "O email já está em uso. Escolha outro email."⟩ ∧
      (app sampleStore registerAnaAgain).1.users = [ana, bruno]) ∧
    (registerCarla.body.email = .value "carla@hotel.com" ∧
      (∀ r ∈ sampleStore.users, r.email ≠ some "carla@hotel.com") ∧
      ∃ user : UserRow, (app sampleStore registerCarla).2 = some ⟨200, .user user⟩ ∧
        user.id = 3 ∧ (app sampleStore registerCarla).1.users = [ana, bruno, user]) := by
  have h1 := (register_rejects_duplicate_email sampleStore registerAnaAgain "ana@hotel.com"
    rfl rfl rfl).1 ⟨ana, by decide, rfl⟩
  obtain ⟨user, h2, h3, -, -, -, -, -, -, h4, -⟩ :=
    (register_rejects_duplicate_email sampleStore registerCarla "carla@hotel.com"
      rfl rfl rfl).2 (by decide)
  exact ⟨⟨rfl, rfl, rfl, ⟨ana, by decide, rfl⟩, h1.1, h1.2.1⟩,
    ⟨rfl, by decide, user, h2, h3, h4⟩⟩

/-! ## Creating a reservation -/

theorem truthyStr_iff (f : BodyField String) : f.truthyStr = true ↔ ¬ FalsyStr f := by
  cases f with
  | undefined => simp [BodyField.truthyStr, FalsyStr]
  | null => simp [BodyField.truthyStr, FalsyStr]
  | value a => simp [BodyField.truthyStr, FalsyStr]

theorem truthyNum_iff (f : BodyField Int) : f.truthyNum = true ↔ ¬ FalsyNum f := by
  cases f with
  | undefined => simp [BodyField.truthyNum, FalsyNum]
  | null => simp [BodyField.truthyNum, FalsyNum]
  | value a => simp [BodyField.truthyNum, FalsyNum]

theorem truthyDate_iff (f : BodyField DateText) : f.truthyDate = true ↔ ¬ FalsyDate f := by
  cases f with
  | undefined => simp [BodyField.truthyDate, FalsyDate]
  | null => simp [BodyField.truthyDate, FalsyDate]
  | value a => cases a <;> simp [BodyField.truthyDate, FalsyDate]

theorem truthyDate_reads {f : BodyField DateText} (h : ¬ FalsyDate f) :
    ∃ d, f = .value (.reads d) := by
  cases f with
  | undefined => exact absurd (Or.inl rfl) h
  | null => exact absurd (Or.inr (Or.inl rfl)) h
  | value a =>
    cases a with
    | empty => exact absurd (Or.inr (Or.inr rfl)) h
    | reads d => exact ⟨d, rfl⟩

theorem Reserva.pairTaken_none (rows : List ReservaRow) (a b : DateValue) :
    Reserva.pairTaken rows none (some a) (some b) = true ↔
      ∃ r ∈ rows, r.dataEntrada = some a ∧ r.dataSaida = some b := by
  simp [Reserva.pairTaken]

theorem postReservas_falsy (s : Store) (req : Request)
    (h : FalsyStr req.body.apartamento ∨ FalsyNum req.body.numHospedes ∨
      FalsyDate req.body.dataEntrada ∨ FalsyDate req.body.dataSaida) :
    postReservas s req = (s, some ⟨400, .message "Todos os campos são obrigatórios."⟩) := by
  have hcond : (!req.body.apartamento.truthyStr || !req.body.numHospedes.truthyNum
      || !req.body.dataEntrada.truthyDate || !req.body.dataSaida.truthyDate) = true := by
    rcases h with h | h | h | h
    · have := (truthyStr_iff req.body.apartamento).not.mpr (not_not.mpr h)
      simp [Bool.not_eq_true] at this
      simp [this]
    · have := (truthyNum_iff req.body.numHospedes).not.mpr (not_not.mpr h)
      simp [Bool.not_eq_true] at this
      simp [this]
    · have := (truthyDate_iff req.body.dataEntrada).not.mpr (not_not.mpr h)
      simp [Bool.not_eq_true] at this
      simp [this]
    · have := (truthyDate_iff req.body.dataSaida).not.mpr (not_not.mpr h)
      simp [Bool.not_eq_true] at this
      simp [this]
  simp only [postReservas, hcond, if_true]

theorem postReservas_truthy (s : Store) (req : Request)
    (h1 : ¬ FalsyStr req.body.apartamento) (h2 : ¬ FalsyNum req.body.numHospedes)
    (h3 : ¬ FalsyDate req.body.dataEntrada) (h4 : ¬ FalsyDate req.body.dataSaida) :
    postReservas s req =
      match Reserva.create s req.body.apartamento req.body.numHospedes req.body.dataEntrada
          req.body.dataSaida with
      | .ok (reserva, s') =>
        (s', some ⟨201, .reservaCreated "Reserva criada com sucesso!" reserva⟩)
      | .error _ => (s, none) := by
  have t1 := (truthyStr_iff _).mpr h1
  have t2 := (truthyNum_iff _).mpr h2
  have t3 := (truthyDate_iff _).mpr h3
  have t4 := (truthyDate_iff _).mpr h4
  simp [postReservas, t1, t2, t3, t4]

theorem app_post_reservas (s : Store) (req : Request) (hm : req.method = .POST)
    (hp : req.path = .reservas) (ha : req.authorization = some "secret-token") :
    app s req = postReservas s req := by
  rw [app_gated s req (by simp [hm]) (by simp [hp]) ha]
  simp [gatedRoutes, hm, hp]

theorem Reserva.create_pair_taken (s : Store) (ap : BodyField String) (n : BodyField Int)
    (a b : DateValue) (h : ∃ r ∈ s.reservas, r.dataEntrada = some a ∧ r.dataSaida = some b) :
    Reserva.create s ap n (.value (.reads a)) (.value (.reads b)) = .error .uniqueConstraint := by
  have ht := (Reserva.pairTaken_none s.reservas a b).mpr h
  simp only [Reserva.create, BodyField.toDateColumn, DateText.toValue, ht, if_true]

theorem Reserva.create_pair_free (s : Store) (ap : BodyField String) (n : BodyField Int)
    (a b : DateValue)
    (h : ∀ r ∈ s.reservas, ¬ (r.dataEntrada = some a ∧ r.dataSaida = some b)) :
    Reserva.create s ap n (.value (.reads a)) (.value (.reads b)) =
      .ok (⟨s.nextReservaId, ap.toColumn, n.toColumn, some a, some b⟩,
        ⟨s.users, s.reservas ++ [⟨s.nextReservaId, ap.toColumn, n.toColumn, some a, some b⟩],
          s.nextUserId, s.nextReservaId + 1⟩) := by
  have ht : Reserva.pairTaken s.reservas none (some a) (some b) = false := by
    rw [← Bool.not_eq_true, Reserva.pairTaken_none]
    push_neg
    intro r hr h1
    have := h r hr
    tauto
  simp [Reserva.create, BodyField.toDateColumn, DateText.toValue, ht]

/-- C4 (amended). For every store and every authorized `POST /reservas`
request: if at least one of apartamento, numHospedes, dataEntrada, dataSaida is
absent or falsy (missing, null, the empty string, the number 0), the response is
400 and the store is unchanged.  If all four are present and truthy and no
Reserva row holds the same pair of dates (dataEntrada, dataSaida), the dates
being compared as the storage layer converts them and not as they are spelled,
the row is created with the generated id, the submitted apartamento and
numHospedes and the converted dates, and the response is 201 with the new
record.  If all four are truthy and a row already holds the pair, no row is
created. -/
theorem create_reserva_checks_fields (s : Store) (req : Request)
    (hm : req.method = .POST) (hp : req.path = .reservas)
    (ha : req.authorization = some "secret-token") :
    ((FalsyStr req.body.apartamento ∨ FalsyNum req.body.numHospedes ∨
        FalsyDate req.body.dataEntrada ∨ FalsyDate req.body.dataSaida) →
      app s req = (s, some ⟨400, .message "Todos os campos são obrigatórios."⟩)) ∧
    (¬ FalsyStr req.body.apartamento → ¬ FalsyNum req.body.numHospedes →
      ¬ FalsyDate req.body.dataEntrada → ¬ FalsyDate req.body.dataSaida →
      ((∀ r ∈ s.reservas, ¬ (r.dataEntrada = req.body.dataEntrada.toDateColumn ∧
          r.dataSaida = req.body.dataSaida.toDateColumn)) →
        ∃ reserva : ReservaRow,
          (app s req).2 = some ⟨201, .reservaCreated "Reserva criada com sucesso!" reserva⟩ ∧
          reserva.id = s.nextReservaId ∧
          reserva.apartamento = req.body.apartamento.toColumn ∧
          reserva.numHospedes = req.body.numHospedes.toColumn ∧
          reserva.dataEntrada = req.body.dataEntrada.toDateColumn ∧
          reserva.dataSaida = req.body.dataSaida.toDateColumn ∧
          (app s req).1.reservas = s.reservas ++ [reserva] ∧
          (app s req).1.users = s.users) ∧
      ((∃ r ∈ s.reservas, r.dataEntrada = req.body.dataEntrada.toDateColumn ∧
          r.dataSaida = req.body.dataSaida.toDateColumn) →
        (app s req).1.reservas = s.reservas ∧ (app s req).1.users = s.users)) := by
  rw [app_post_reservas s req hm hp ha]
  refine ⟨postReservas_falsy s req, fun h1 h2 h3 h4 => ?_⟩
  rw [postReservas_truthy s req h1 h2 h3 h4]
  obtain ⟨a, hda⟩ := truthyDate_reads h3
  obtain ⟨b, hdb⟩ := truthyDate_reads h4
  rw [hda, hdb]
  refine ⟨fun hfree => ?_, fun hheld => ?_⟩
  · have hc := Reserva.create_pair_free s req.body.apartamento req.body.numHospedes a b hfree
    exact ⟨⟨s.nextReservaId, req.body.apartamento.toColumn, req.body.numHospedes.toColumn,
      some a, some b⟩, by simp [hc], rfl, rfl, rfl, rfl, rfl, by simp [hc], by simp [hc]⟩
  · have hc := Reserva.create_pair_taken s req.body.apartamento req.body.numHospedes a b hheld
    simp [hc]

/-- C4, instance: zero guests is refused with 400, and a reservation on free
dates is created with id 2. -/
theorem create_reserva_checks_fields_witness :
    (bookZeroGuests.method = .POST ∧ bookZeroGuests.path = .reservas ∧
      bookZeroGuests.authorization = some "secret-token" ∧
      bookZeroGuests.body.numHospedes = .value 0 ∧
      app sampleStore bookZeroGuests
        = (sampleStore, some ⟨400, .message "Todos os campos são obrigatórios."⟩)) ∧
    (∃ reserva : ReservaRow,
      (app sampleStore bookNewDates).2
        = some ⟨201, .reservaCreated "Reserva criada com sucesso!" reserva⟩ ∧
      reserva.id = 2 ∧ (app sampleStore bookNewDates).1.reservas = [reserva101, reserva]) := by
  have h1 := (create_reserva_checks_fields sampleStore bookZeroGuests rfl rfl rfl).1
    (Or.inr (Or.inl (Or.inr (Or.inr rfl))))
  obtain ⟨reserva, h2, h3, -, -, -, -, h4, -⟩ :=
    ((create_reserva_checks_fields sampleStore bookNewDates rfl rfl rfl).2
      (by decide) (by decide) (by decide) (by decide)).1 (by decide)
  exact ⟨⟨rfl, rfl, rfl, rfl, h1⟩, ⟨reserva, h2, h3, h4⟩⟩

/-- C4, as stated, fails when the dates are taken: the request is authorized
and its four fields are present and truthy, yet no row is created and no 201 is
sent, because a row already holds the same (dataEntrada, dataSaida) pair. -/
theorem truthy_fields_without_creation :
    bookSameDates.method = .POST ∧ bookSameDates.path = .reservas ∧
    bookSameDates.authorization = some "secret-token" ∧
    ¬ FalsyStr bookSameDates.body.apartamento ∧ ¬ FalsyNum bookSameDates.body.numHospedes ∧
    ¬ FalsyDate bookSameDates.body.dataEntrada ∧ ¬ FalsyDate bookSameDates.body.dataSaida ∧
    app sampleStore bookSameDates = (sampleStore, none) :=
  ⟨rfl, rfl, rfl, by decide, by decide, by decide, by decide, rfl⟩

/-! ## Updating a user -/

theorem eq_of_key_eq {α : Type} (rows : List α) (key : α → Nat) (a b : α)
    (hd : rows.Pairwise (fun x y => key x ≠ key y)) (ha : a ∈ rows) (hb : b ∈ rows)
    (h : key a = key b) : a = b := by
  have h1 := find_id_unique rows key a hd ha
  have h2 := find_id_unique rows key b hd hb
  rw [h] at h1
  rw [h1] at h2
  exact Option.some.inj h2

theorem filter_key_length_one {α : Type} (rows : List α) (key : α → Nat) (row : α)
    (hd : rows.Pairwise (fun x y => key x ≠ key y)) (hrow : row ∈ rows) :
    (rows.filter (fun r => key r == key row)).length = 1 := by
  induction rows with
  | nil => cases hrow
  | cons a l ih =>
    rw [List.pairwise_cons] at hd
    rcases List.mem_cons.mp hrow with h | h
    · subst h
      have hnil : l.filter (fun r => key r == key row) = [] := by
        rw [List.filter_eq_nil_iff]
        intro r hr
        have := hd.1 r hr
        simpa using fun h' => this h'.symm
      simp [hnil]
    · have hne : key a ≠ key row := hd.1 row h
      rw [List.filter_cons_of_neg (by simpa using hne)]
      exact ih hd.2 h

theorem filter_key_nil {α : Type} (rows : List α) (key : α → Nat) (n : Nat)
    (h : ∀ r ∈ rows, key r ≠ n) : rows.filter (fun r => key r == n) = [] := by
  rw [List.filter_eq_nil_iff]
  intro r hr
  simpa using h r hr

theorem map_patch_none {α : Type} (rows : List α) (key : α → Nat) (n : Nat) (f : α → α)
    (h : ∀ r ∈ rows, key r ≠ n) : rows.map (fun r => if key r == n then f r else r) = rows := by
  have : ∀ r ∈ rows, (fun r => if key r == n then f r else r) r = id r := by
    intro r hr
    have := h r hr
    simp [this]
  rw [List.map_congr_left this, List.map_id]

theorem written_applyTo {α : Type} (f : BodyField α) (old : Option α) :
    Written f old (f.applyTo old) := by
  cases f <;> simp [Written, BodyField.applyTo]

theorem app_put_user (s : Store) (req : Request) (userId : Nat) (hm : req.method = .PUT)
    (hp : req.path = .usersId userId) (ha : req.authorization = some "secret-token") :
    app s req = putUsersId s userId req := by
  rw [app_gated s req (by simp [hm]) (by simp [hp]) ha]
  simp [gatedRoutes, hm, hp]

theorem namesUser_iff (b : Body) :
    b.namesUser = true ↔
      (b.nome ≠ .undefined ∨ b.email ≠ .undefined ∨ b.senha ≠ .undefined ∨
        b.token ≠ .undefined ∨ b.cpf ≠ .undefined ∨ b.dataNascimento ≠ .undefined) := by
  have named : ∀ {α : Type} (f : BodyField α), f.isNamed = true ↔ f ≠ .undefined := by
    intro α f
    cases f <;> simp [BodyField.isNamed]
  simp only [Body.namesUser, Bool.or_eq_true, named, or_assoc]

theorem User.update_unnamed (s : Store) (values : Body) (userId : Nat)
    (h : values.namesUser = false) : User.update s values userId = .ok (0, s) := by
  simp [User.update, h]

theorem User.update_free (s : Store) (values : Body) (userId : Nat)
    (hn : values.namesUser = true)
    (h : ∀ e, values.email = .value e → ∀ r ∈ s.users, r.id ≠ userId → r.email ≠ some e) :
    User.update s values userId =
      .ok ((s.users.filter (fun r => r.id == userId)).length,
        ⟨s.users.map (fun r => if r.id == userId then User.patch values r else r),
          s.reservas, s.nextUserId, s.nextReservaId⟩) := by
  cases hE : values.email with
  | undefined => simp [User.update, hE, hn]
  | null => simp [User.update, hE, hn]
  | value e =>
    have hany : User.emailTaken s.users (some userId) e = false := by
      rw [← Bool.not_eq_true, User.emailTaken_some]
      rintro ⟨r, hr, h1, h2⟩
      exact h e hE r hr h1 h2
    simp [User.update, hE, hany, hn]

theorem User.update_absent (s : Store) (values : Body) (userId : Nat)
    (h : ∀ r ∈ s.users, r.id ≠ userId) : User.update s values userId = .ok (0, s) := by
  have hnil : s.users.filter (fun r => r.id == userId) = [] :=
    filter_key_nil s.users (fun r => r.id) userId h
  have hmap : s.users.map (fun r => if r.id == userId then User.patch values r else r)
      = s.users := map_patch_none s.users (fun r => r.id) userId (User.patch values) h
  unfold User.update
  rw [hnil, hmap]
  cases values.email <;> simp

theorem User.update_clash (s : Store) (values : Body) (userId : Nat) (e : String)
    (he : values.email = .value e) (hrow : ∃ r ∈ s.users, r.id = userId)
    (h : ∃ r ∈ s.users, r.id ≠ userId ∧ r.email = some e) :
    User.update s values userId = .error .uniqueConstraint := by
  have hn : values.namesUser = true := by
    rw [namesUser_iff]
    exact Or.inr (Or.inl (by rw [he]; exact BodyField.noConfusion))
  have hany := (User.emailTaken_some s.users userId e).mpr h
  have hne : (s.users.filter (fun r => r.id == userId)).isEmpty = false := by
    obtain ⟨r, hr, hid⟩ := hrow
    have hmem : r ∈ s.users.filter (fun r => r.id == userId) := by
      simp [List.mem_filter, hr, hid]
    cases hf : s.users.filter (fun r => r.id == userId) with
    | nil => rw [hf] at hmem; cases hmem
    | cons a l => rfl
  simp only [User.update, hn, he, hany, hne]
  simp

/-- C7 (amended). For every store with distinct user ids and every authorized
`PUT /users/:id` request whose body holds a subset of the user attributes: if a
User row has that id, the body names at least one attribute, and the email of
the body, when there is one, is held by no other row, then the attributes named
in the body take the new values, every other attribute of the row and every
other row are unchanged, and the response reports affectedRows = 1; if a row has
that id and another row holds the email of the body, the tables are unchanged;
if the body names no attribute, the store is unchanged and the response is the
success message with affectedRows = 0, whether a row has that id or not; if no
row has that id, the store is unchanged and the response is the success message
with affectedRows = 0. -/
theorem put_user_updates_named_fields (s : Store) (req : Request) (userId : Nat)
    (hm : req.method = .PUT) (hp : req.path = .usersId userId)
    (ha : req.authorization = some "secret-token") (hd : UserIdsDistinct s.users) :
    (∀ row ∈ s.users, row.id = userId →
      (req.body.nome ≠ .undefined ∨ req.body.email ≠ .undefined ∨
        req.body.senha ≠ .undefined ∨ req.body.token ≠ .undefined ∨
        req.body.cpf ≠ .undefined ∨ req.body.dataNascimento ≠ .undefined) →
      (∀ e, req.body.email = .value e → ∀ r ∈ s.users, r.id ≠ userId → r.email ≠ some e) →
      ∃ row' : UserRow,
        (app s req).2
          = some ⟨200, .affected "Os dados foram atualizados com sucesso!" 1⟩ ∧
        row'.id = row.id ∧
        Written req.body.nome row.nome row'.nome ∧
        Written req.body.email row.email row'.email ∧
        Written req.body.senha row.senha row'.senha ∧
        Written req.body.token row.token row'.token ∧
        Written req.body.cpf row.cpf row'.cpf ∧
        Written req.body.dataNascimento row.dataNascimento row'.dataNascimento ∧
        (app s req).1.users = s.users.map (fun r => if r.id = userId then row' else r) ∧
        (app s req).1.reservas = s.reservas) ∧
    (∀ row ∈ s.users, row.id = userId →
      (∃ e, req.body.email = .value e ∧ ∃ r ∈ s.users, r.id ≠ userId ∧ r.email = some e) →
      (app s req).1.users = s.users ∧ (app s req).1.reservas = s.reservas) ∧
    ((req.body.nome = .undefined ∧ req.body.email = .undefined ∧
        req.body.senha = .undefined ∧ req.body.token = .undefined ∧
        req.body.cpf = .undefined ∧ req.body.dataNascimento = .undefined) →
      app s req
        = (s, some ⟨200, .affected "Os dados foram atualizados com sucesso!" 0⟩)) ∧
    ((∀ r ∈ s.users, r.id ≠ userId) →
      app s req
        = (s, some ⟨200, .affected "Os dados foram atualizados com sucesso!" 0⟩)) := by
  rw [app_put_user s req userId hm hp ha]
  refine ⟨fun row hrow hid hnamed hfree => ?_, fun row hrow hid hheld => ?_, fun hnone => ?_,
    fun hno => ?_⟩
  · have hu := User.update_free s req.body userId ((namesUser_iff req.body).mpr hnamed) hfree
    have hlen : (s.users.filter (fun r => r.id == userId)).length = 1 := by
      rw [← hid]
      exact filter_key_length_one s.users (fun r => r.id) row hd hrow
    have hmap : s.users.map (fun r => if r.id == userId then User.patch req.body r else r)
        = s.users.map (fun r => if r.id = userId then User.patch req.body row else r) := by
      apply List.map_congr_left
      intro r hr
      by_cases hr' : r.id = userId
      · have : r = row := eq_of_key_eq s.users (fun r => r.id) r row hd hr hrow (hr'.trans hid.symm)
        simp [hr', this, hid]
      · simp [hr']
    rw [hmap, hlen] at hu
    refine ⟨User.patch req.body row, ?_, rfl, written_applyTo _ _, written_applyTo _ _,
      written_applyTo _ _, written_applyTo _ _, written_applyTo _ _, written_applyTo _ _, ?_, ?_⟩
    · simp [putUsersId, hu]
    · simp [putUsersId, hu]
    · simp [putUsersId, hu]
  · obtain ⟨e, he, hother⟩ := hheld
    have hu := User.update_clash s req.body userId e he ⟨row, hrow, hid⟩ hother
    simp [putUsersId, hu]
  · have hn : req.body.namesUser = false := by
      rw [← Bool.not_eq_true, namesUser_iff]
      obtain ⟨h1, h2, h3, h4, h5, h6⟩ := hnone
      simp [h1, h2, h3, h4, h5, h6]
    have hu := User.update_unnamed s req.body userId hn
    simp [putUsersId, hu]
  · have hu := User.update_absent s req.body userId hno
    simp [putUsersId, hu]

/-- C7, instance: renaming user 1 changes the name only and reports one row;
renaming user 7, which no row holds, reports none. -/
theorem put_user_updates_named_fields_witness :
    renameAna.method = .PUT ∧ renameAna.path = .usersId 1 ∧
    renameAna.authorization = some "secret-token" ∧ UserIdsDistinct sampleStore.users ∧
    renameAna.body.nome ≠ .undefined ∧
    (∃ row' : UserRow,
      (app sampleStore renameAna).2
        = some ⟨200, .affected "Os dados foram atualizados com sucesso!" 1⟩ ∧
      row'.nome = some "Ana Maria" ∧ row'.email = ana.email ∧
      (app sampleStore renameAna).1.users = [row', bruno]) ∧
    app sampleStore renameNobody
      = (sampleStore, some ⟨200, .affected "Os dados foram atualizados com sucesso!" 0⟩) := by
  have hd : UserIdsDistinct sampleStore.users := by
    simp [UserIdsDistinct, sampleStore, ana, bruno]
  obtain ⟨row', h1, -, h2, h3, -, -, -, -, h4, -⟩ :=
    (put_user_updates_named_fields sampleStore renameAna 1 rfl rfl rfl hd).1 ana (by decide) rfl
      (Or.inl (by decide)) (fun e he => BodyField.noConfusion he)
  refine ⟨rfl, rfl, rfl, hd, by decide, ⟨row', h1, h2, h3, ?_⟩,
    (put_user_updates_named_fields sampleStore renameNobody 7 rfl rfl rfl hd).2.2.2 (by decide)⟩
  rw [h4]
  simp [sampleStore, ana, bruno]

/-- C7, as stated, fails in two cases in which a row has the id.  When the
email of the body is held by another row (user 2 holds the email sent for user
1), no attribute takes the new value and no response with affectedRows = 1 is
sent.  When the body names no attribute (the empty subset), the response
reports affectedRows = 0, not 1. -/
theorem update_of_existing_user_without_affected_row :
    (anaTakesBrunoEmail.method = .PUT ∧ anaTakesBrunoEmail.path = .usersId 1 ∧
      anaTakesBrunoEmail.authorization = some "secret-token" ∧
      (∃ row ∈ sampleStore.users, row.id = 1) ∧
      anaTakesBrunoEmail.body.email = .value "bruno@hotel.com" ∧
      app sampleStore anaTakesBrunoEmail = (sampleStore, none)) ∧
    (emptyPutAna.method = .PUT ∧ emptyPutAna.path = .usersId 1 ∧
      emptyPutAna.authorization = some "secret-token" ∧
      (∃ row ∈ sampleStore.users, row.id = 1) ∧
      emptyPutAna.body = noBody ∧
      app sampleStore emptyPutAna
        = (sampleStore, some ⟨200, .affected "Os dados foram atualizados com sucesso!" 0⟩)) :=
  ⟨⟨rfl, rfl, rfl, ⟨ana, by decide, rfl⟩, rfl, rfl⟩,
    ⟨rfl, rfl, rfl, ⟨ana, by decide, rfl⟩, rfl, rfl⟩⟩

/-! ## The invariant of the database -/

theorem pairwise_append_one {α : Type} (R : α → α → Prop) (l : List α) (x : α) :
    (l ++ [x]).Pairwise R ↔ l.Pairwise R ∧ ∀ a ∈ l, R a x := by
  simp [List.pairwise_append]

theorem emptyStore_valid : emptyStore.Valid := by
  constructor <;> simp [emptyStore, UserIdsDistinct, EmailsDistinct, ReservaIdsDistinct,
    PairsDistinct]

theorem User.create_keeps_valid (s : Store) (nome email senha token cpf : BodyField String)
    (dataNascimento : BodyField DateValue) (hv : s.Valid) (user : UserRow) (s' : Store)
    (h : User.create s nome email senha token cpf dataNascimento = .ok (user, s')) :
    s'.Valid := by
  by_cases hfree : ∀ e, email = .value e → ∀ r ∈ s.users, r.email ≠ some e
  · rw [User.create_email_free s nome email senha token cpf dataNascimento hfree] at h
    injection h with h
    injection h with h1 h2
    subst h2
    refine ⟨?_, ?_, ?_, hv.reservaIds, hv.reservaBound, hv.pairs⟩
    · exact (pairwise_append_one _ _ _).mpr ⟨hv.userIds, fun a ha => Nat.ne_of_lt (hv.userBound a ha)⟩
    · intro r hr
      rcases List.mem_append.mp hr with hr | hr
      · exact Nat.lt_succ_of_lt (hv.userBound r hr)
      · rw [List.mem_singleton.mp hr]
        exact Nat.lt_succ_self _
    · refine (pairwise_append_one _ _ _).mpr ⟨hv.emails, fun a ha e hae hrow => ?_⟩
      have hval : email = .value e := by
        cases email with
        | undefined => simp [BodyField.toColumn] at hrow
        | null => simp [BodyField.toColumn] at hrow
        | value v =>
          simp only [BodyField.toColumn, Option.some.injEq] at hrow
          rw [hrow]
      exact hfree e hval a ha hae
  · push_neg at hfree
    obtain ⟨e, he, r, hr, hre⟩ := hfree
    rw [User.create_email_taken s nome email senha token cpf dataNascimento e he ⟨r, hr, hre⟩] at h
    cases h

theorem User.update_keeps_valid (s : Store) (values : Body) (userId : Nat) (hv : s.Valid)
    (n : Nat) (s' : Store) (h : User.update s values userId = .ok (n, s')) : s'.Valid := by
  have hfree : ∀ e, values.email = .value e → ∀ a ∈ s.users, a.id = userId →
      ∀ b ∈ s.users, b.id ≠ userId → b.email ≠ some e := by
    intro e he a ha haid b hb hbid hbe
    rw [User.update_clash s values userId e he ⟨a, ha, haid⟩ ⟨b, hb, hbid, hbe⟩] at h
    cases h
  by_cases hn : values.namesUser = true
  swap
  · rw [User.update_unnamed s values userId (by simpa using hn)] at h
    injection h with h
    injection h with h1 h2
    subst h2
    exact hv
  have hs' : s' = ⟨s.users.map (fun r => if r.id == userId then User.patch values r else r),
      s.reservas, s.nextUserId, s.nextReservaId⟩ := by
    simp only [User.update, hn, Bool.not_true, Bool.false_eq_true, if_false] at h
    split_ifs at h
    injection h with h
    injection h with h1 h2
    exact h2.symm
  subst hs'
  have hid : ∀ r : UserRow, (if r.id == userId then User.patch values r else r).id = r.id := by
    intro r
    split <;> rfl
  refine ⟨?_, ?_, ?_, hv.reservaIds, hv.reservaBound, hv.pairs⟩
  · show UserIdsDistinct (s.users.map _)
    unfold UserIdsDistinct
    rw [List.pairwise_map]
    exact hv.userIds.imp (fun {a b} hab => by rw [hid a, hid b]; exact hab)
  · intro r hr
    obtain ⟨r0, hr0, rfl⟩ := List.mem_map.mp hr
    rw [hid r0]
    exact hv.userBound r0 hr0
  · show EmailsDistinct (s.users.map _)
    unfold EmailsDistinct
    rw [List.pairwise_map]
    have hboth := hv.userIds.and hv.emails
    refine hboth.imp_of_mem (fun {a b} ha hb hab => ?_)
    obtain ⟨hne, hem⟩ := hab
    intro e
    by_cases haid : a.id = userId
    · have hbid : b.id ≠ userId := fun hbid => hne (haid.trans hbid.symm)
      simp only [haid, hbid, beq_self_eq_true, if_true, beq_iff_eq, if_false]
      intro hpa
      cases hE : values.email with
      | undefined =>
        simp only [User.patch, hE, BodyField.applyTo] at hpa
        exact hem e hpa
      | null => simp [User.patch, hE, BodyField.applyTo] at hpa
      | value v =>
        simp only [User.patch, hE, BodyField.applyTo, Option.some.injEq] at hpa
        subst hpa
        exact hfree v hE a ha haid b hb hbid
    · simp only [haid, beq_iff_eq, if_false]
      intro hae
      by_cases hbid : b.id = userId
      · simp only [hbid, beq_self_eq_true, if_true]
        cases hE : values.email with
        | undefined =>
          simp only [User.patch, hE, BodyField.applyTo]
          exact hem e hae
        | null => simp [User.patch, hE, BodyField.applyTo]
        | value v =>
          simp only [User.patch, hE, BodyField.applyTo, ne_eq, Option.some.injEq]
          intro hve
          subst hve
          exact hfree v hE b hb hbid a ha haid hae
      · simp only [hbid, beq_iff_eq, if_false]
        exact hem e hae

theorem User.destroy_keeps_valid (s : Store) (userId : Nat) (hv : s.Valid) :
    (User.destroy s userId).2.Valid := by
  refine ⟨?_, ?_, ?_, hv.reservaIds, hv.reservaBound, hv.pairs⟩
  · exact List.Pairwise.filter _ hv.userIds
  · intro r hr
    exact hv.userBound r (List.mem_of_mem_filter hr)
  · exact List.Pairwise.filter _ hv.emails

theorem Reserva.pairTaken_some (rows : List ReservaRow) (n : Nat) (a b : DateValue) :
    Reserva.pairTaken rows (some n) (some a) (some b) = true ↔
      ∃ r ∈ rows, r.id ≠ n ∧ r.dataEntrada = some a ∧ r.dataSaida = some b := by
  simp [Reserva.pairTaken, and_assoc]

theorem Reserva.create_preserves (s : Store) (ap : BodyField String) (g : BodyField Int)
    (dataEntrada dataSaida : BodyField DateText) (hv : s.Valid) (reserva : ReservaRow) (s' : Store)
    (h : Reserva.create s ap g dataEntrada dataSaida = .ok (reserva, s')) : s'.Valid := by
  simp only [Reserva.create] at h
  split_ifs at h with hc
  injection h with h
  injection h with h1 h2
  subst h2
  refine ⟨hv.userIds, hv.userBound, hv.emails, ?_, ?_, ?_⟩
  · exact (pairwise_append_one _ _ _).mpr
      ⟨hv.reservaIds, fun a ha => Nat.ne_of_lt (hv.reservaBound a ha)⟩
  · intro r hr
    rcases List.mem_append.mp hr with hr | hr
    · exact Nat.lt_succ_of_lt (hv.reservaBound r hr)
    · rw [List.mem_singleton.mp hr]
      exact Nat.lt_succ_self _
  · refine (pairwise_append_one _ _ _).mpr ⟨hv.pairs, fun a ha d1 d2 h1 h2 hnew => ?_⟩
    apply hc
    simp only at hnew
    rw [hnew.1, hnew.2]
    exact (Reserva.pairTaken_none s.reservas d1 d2).mpr ⟨a, ha, h1, h2⟩

theorem Reserva.update_preserves (s : Store) (values : Body) (reservaId : Nat) (hv : s.Valid)
    (n : Nat) (s' : Store) (h : Reserva.update s values reservaId = .ok (n, s')) :
    s'.Valid := by
  by_cases hn : values.namesReserva = true
  swap
  · have hn' : values.namesReserva = false := by simpa using hn
    simp only [Reserva.update, hn', Bool.not_false, if_true] at h
    injection h with h
    injection h with h1 h2
    subst h2
    exact hv
  simp only [Reserva.update, hn, Bool.not_true, Bool.false_eq_true, if_false] at h
  split_ifs at h with hc
  injection h with h
  injection h with h1 h2
  subst h2
  have hfree : ∀ a ∈ s.reservas, a.id = reservaId → ∀ d1 d2 : DateValue,
      (Reserva.patch values a).dataEntrada = some d1 →
      (Reserva.patch values a).dataSaida = some d2 →
      ∀ b ∈ s.reservas, b.id ≠ reservaId → ¬ (b.dataEntrada = some d1 ∧ b.dataSaida = some d2) := by
    intro a ha haid d1 d2 h1 h2 b hb hbid hbp
    apply hc
    rw [List.any_eq_true]
    refine ⟨a, ?_, ?_⟩
    · simp [List.mem_filter, ha, haid]
    · rw [h1, h2]
      exact (Reserva.pairTaken_some s.reservas reservaId d1 d2).mpr ⟨b, hb, hbid, hbp.1, hbp.2⟩
  have hid : ∀ r : ReservaRow,
      (if r.id == reservaId then Reserva.patch values r else r).id = r.id := by
    intro r
    split <;> rfl
  refine ⟨hv.userIds, hv.userBound, hv.emails, ?_, ?_, ?_⟩
  · show ReservaIdsDistinct (s.reservas.map _)
    unfold ReservaIdsDistinct
    rw [List.pairwise_map]
    exact hv.reservaIds.imp (fun {a b} hab => by rw [hid a, hid b]; exact hab)
  · intro r hr
    obtain ⟨r0, hr0, rfl⟩ := List.mem_map.mp hr
    rw [hid r0]
    exact hv.reservaBound r0 hr0
  · show PairsDistinct (s.reservas.map _)
    unfold PairsDistinct
    rw [List.pairwise_map]
    have hboth := hv.reservaIds.and hv.pairs
    refine hboth.imp_of_mem (fun {a b} ha hb hab => ?_)
    obtain ⟨hne, hpr⟩ := hab
    intro d1 d2
    by_cases haid : a.id = reservaId
    · have hbid : b.id ≠ reservaId := fun hbid => hne (haid.trans hbid.symm)
      simp only [haid, hbid, beq_self_eq_true, if_true, beq_iff_eq, if_false]
      intro h1 h2
      exact hfree a ha haid d1 d2 h1 h2 b hb hbid
    · simp only [haid, beq_iff_eq, if_false]
      intro h1 h2
      by_cases hbid : b.id = reservaId
      · simp only [hbid, beq_self_eq_true, if_true]
        intro hbp
        exact hfree b hb hbid d1 d2 hbp.1 hbp.2 a ha haid ⟨h1, h2⟩
      · simp only [hbid, beq_iff_eq, if_false]
        exact hpr d1 d2 h1 h2

theorem Reserva.destroy_preserves (s : Store) (reservaId : Nat) (hv : s.Valid) :
    (Reserva.destroy s reservaId).2.Valid := by
  refine ⟨hv.userIds, hv.userBound, hv.emails, ?_, ?_, ?_⟩
  · exact List.Pairwise.filter _ hv.reservaIds
  · intro r hr
    exact hv.reservaBound r (List.mem_of_mem_filter hr)
  · exact List.Pairwise.filter _ hv.pairs

theorem postUsers_valid (s : Store) (req : Request) (hv : s.Valid) :
    (postUsers s req).1.Valid := by
  rcases hc : User.create s req.body.nome req.body.email req.body.senha req.body.token
      req.body.cpf req.body.dataNascimento with e | ⟨user, s'⟩
  · simp only [postUsers, hc]
    split_ifs <;> exact hv
  · simp only [postUsers, hc]
    exact User.create_keeps_valid s _ _ _ _ _ _ hv user s' hc

theorem putUsersId_valid (s : Store) (userId : Nat) (req : Request) (hv : s.Valid) :
    (putUsersId s userId req).1.Valid := by
  unfold putUsersId
  cases hc : User.update s req.body userId with
  | error e => exact hv
  | ok v =>
    obtain ⟨n, s'⟩ := v
    exact User.update_keeps_valid s req.body userId hv n s' hc

theorem postLogin_store (s : Store) (req : Request) : (postLogin s req).1 = s := by
  unfold postLogin
  cases User.findOneByCredentials s req.body.email req.body.senha with
  | error e => rfl
  | ok v => cases v <;> rfl

theorem postReservas_valid (s : Store) (req : Request) (hv : s.Valid) :
    (postReservas s req).1.Valid := by
  simp only [postReservas]
  split_ifs
  · exact hv
  · rcases hc : Reserva.create s req.body.apartamento req.body.numHospedes req.body.dataEntrada
        req.body.dataSaida with e | ⟨reserva, s'⟩
    · exact hv
    · exact Reserva.create_preserves s _ _ _ _ hv reserva s' hc

theorem putReservasId_valid (s : Store) (reservaId : Nat) (req : Request) (hv : s.Valid) :
    (putReservasId s reservaId req).1.Valid := by
  unfold putReservasId
  cases Reserva.findByPk s reservaId with
  | none => exact hv
  | some r =>
    cases hc : Reserva.update s req.body reservaId with
    | error e => exact hv
    | ok v =>
      obtain ⟨n, s'⟩ := v
      exact Reserva.update_preserves s req.body reservaId hv n s' hc

theorem deleteReservasId_valid (s : Store) (reservaId : Nat) (req : Request) (hv : s.Valid) :
    (deleteReservasId s reservaId req).1.Valid := by
  unfold deleteReservasId
  cases Reserva.findByPk s reservaId with
  | none => exact hv
  | some r => exact Reserva.destroy_preserves s reservaId hv

theorem getUsersId_store (s : Store) (userId : Nat) (req : Request) :
    (getUsersId s userId req).1 = s := by
  unfold getUsersId
  cases User.findOne s userId <;> rfl

theorem gatedRoutes_valid (s : Store) (req : Request) (hv : s.Valid) :
    (gatedRoutes s req).1.Valid := by
  unfold gatedRoutes
  split
  · exact hv
  · exact hv
  · rw [getUsersId_store]; exact hv
  · rw [getUsersId_store]; exact hv
  · exact putUsersId_valid s _ req hv
  · exact User.destroy_keeps_valid s _ hv
  · rw [postLogin_store]; exact hv
  · exact hv
  · exact hv
  · exact postReservas_valid s req hv
  · exact putReservasId_valid s _ req hv
  · exact deleteReservasId_valid s _ req hv
  · exact hv

theorem app_valid (s : Store) (req : Request) (hv : s.Valid) : (app s req).1.Valid := by
  unfold app
  split_ifs
  · exact hv
  · exact postUsers_valid s req hv
  · exact hv
  · exact gatedRoutes_valid s req hv

theorem run_valid (reqs : List Request) (s : Store) (hv : s.Valid) : (run s reqs).Valid := by
  induction reqs generalizing s with
  | nil => exact hv
  | cons req rest ih => exact ih (app s req).1 (app_valid s req hv)

/-! ## The unique indexes as invariants of the reachable stores -/

theorem postReservas_leaves_pair (s : Store) (req : Request) (a b : DateValue)
    (h1 : ¬ FalsyStr req.body.apartamento) (h2 : ¬ FalsyNum req.body.numHospedes)
    (h3 : ¬ FalsyDate req.body.dataEntrada) (h4 : ¬ FalsyDate req.body.dataSaida)
    (hda : req.body.dataEntrada = .value (.reads a))
    (hdb : req.body.dataSaida = .value (.reads b)) :
    ∃ r ∈ (postReservas s req).1.reservas, r.dataEntrada = some a ∧ r.dataSaida = some b := by
  rw [postReservas_truthy s req h1 h2 h3 h4, hda, hdb]
  by_cases hheld : ∃ r ∈ s.reservas, r.dataEntrada = some a ∧ r.dataSaida = some b
  · rw [Reserva.create_pair_taken s req.body.apartamento req.body.numHospedes a b hheld]
    exact hheld
  · push_neg at hheld
    rw [Reserva.create_pair_free s req.body.apartamento req.body.numHospedes a b
      (fun r hr hp => hheld r hr hp.1 hp.2)]
    exact ⟨⟨s.nextReservaId, req.body.apartamento.toColumn, req.body.numHospedes.toColumn,
      some a, some b⟩, by simp, rfl, rfl⟩

theorem postReservas_pair_held (s : Store) (req : Request) (a b : DateValue)
    (h1 : ¬ FalsyStr req.body.apartamento) (h2 : ¬ FalsyNum req.body.numHospedes)
    (h3 : ¬ FalsyDate req.body.dataEntrada) (h4 : ¬ FalsyDate req.body.dataSaida)
    (hda : req.body.dataEntrada = .value (.reads a))
    (hdb : req.body.dataSaida = .value (.reads b))
    (hheld : ∃ r ∈ s.reservas, r.dataEntrada = some a ∧ r.dataSaida = some b) :
    postReservas s req = (s, none) := by
  rw [postReservas_truthy s req h1 h2 h3 h4, hda, hdb,
    Reserva.create_pair_taken s req.body.apartamento req.body.numHospedes a b hheld]

/-- C5. For every store and every two authorized `POST /reservas` requests
with all four fields truthy and the same (dataEntrada, dataSaida) pair, served
one after the other, the second one fails (its creation is rejected and no
success response is written) and leaves the store as the first one left it,
whatever the apartamento and numHospedes of either request.  And in every store
reachable from the empty one by any sequence of requests, two different rows of
the Reserva table have different ids and never hold the same
(dataEntrada, dataSaida) pair: no pair of dates is the pair of both, the dates
being the converted column values and not their spellings.  (A row with NULL in
one of the two columns holds no pair.) -/
theorem reservation_dates_are_unique :
    (∀ (s : Store) (req1 req2 : Request),
      req1.method = .POST → req1.path = .reservas →
      req1.authorization = some "secret-token" →
      req2.method = .POST → req2.path = .reservas →
      req2.authorization = some "secret-token" →
      ¬ FalsyStr req1.body.apartamento → ¬ FalsyNum req1.body.numHospedes →
      ¬ FalsyDate req1.body.dataEntrada → ¬ FalsyDate req1.body.dataSaida →
      ¬ FalsyStr req2.body.apartamento → ¬ FalsyNum req2.body.numHospedes →
      req2.body.dataEntrada = req1.body.dataEntrada →
      req2.body.dataSaida = req1.body.dataSaida →
      app (app s req1).1 req2 = ((app s req1).1, none)) ∧
    (∀ reqs : List Request,
      (run emptyStore reqs).reservas.Pairwise (fun a b => a.id ≠ b.id ∧
        ∀ d1 d2 : DateValue, a.dataEntrada = some d1 → a.dataSaida = some d2 →
          ¬ (b.dataEntrada = some d1 ∧ b.dataSaida = some d2))) := by
  refine ⟨?_, fun reqs => ?_⟩
  · intro s req1 req2 hm1 hp1 ha1 hm2 hp2 ha2 f1 f2 f3 f4 g1 g2 hE hS
    obtain ⟨a, hda⟩ := truthyDate_reads f3
    obtain ⟨b, hdb⟩ := truthyDate_reads f4
    rw [app_post_reservas s req1 hm1 hp1 ha1, app_post_reservas _ req2 hm2 hp2 ha2]
    have hheld := postReservas_leaves_pair s req1 a b f1 f2 f3 f4 hda hdb
    exact postReservas_pair_held _ req2 a b g1 g2 (hE ▸ f3) (hS ▸ f4) (hE.trans hda)
      (hS.trans hdb) hheld
  · have hv := run_valid reqs emptyStore emptyStore_valid
    exact hv.reservaIds.and hv.pairs

/-- C5, instance: after a reservation on free dates, a reservation of another
apartment for another number of guests on the same dates fails, and the table
keeps its single row. -/
theorem reservation_dates_are_unique_witness :
    bookNewDatesOther.body.apartamento ≠ bookNewDates.body.apartamento ∧
    bookNewDatesOther.body.numHospedes ≠ bookNewDates.body.numHospedes ∧
    bookNewDatesOther.body.dataEntrada = bookNewDates.body.dataEntrada ∧
    bookNewDatesOther.body.dataSaida = bookNewDates.body.dataSaida ∧
    (app emptyStore bookNewDates).1.reservas.length = 1 ∧
    app (app emptyStore bookNewDates).1 bookNewDatesOther
      = ((app emptyStore bookNewDates).1, none) :=
  ⟨by decide, by decide, rfl, rfl, rfl,
    reservation_dates_are_unique.1 emptyStore bookNewDates bookNewDatesOther rfl rfl rfl
      rfl rfl rfl (by decide) (by decide) (by decide) (by decide) (by decide) (by decide)
      rfl rfl⟩

/-- C8. Starting from the empty store, after every sequence of requests to any
of the routes (`POST /users` and `PUT /users/:id` with an email in the body
included), two different rows of the User table have different ids and never
hold the same email: no email `e` is the email of both.  (A row whose email
column is NULL holds no email.) -/
theorem email_is_unique_in_every_reachable_store (reqs : List Request) :
    (run emptyStore reqs).users.Pairwise (fun a b => a.id ≠ b.id ∧
      ∀ e : String, a.email = some e → b.email ≠ some e) := by
  have hv := run_valid reqs emptyStore emptyStore_valid
  exact hv.userIds.and hv.emails

end ApiHotel
